import Mathlib

/-!
# BACnet MS/TP loopback demo: `bacnetmstp-test.c`

A shallow embedding of the glue program: the three response handlers, the poll
loop `handler_loop`, and `main` (the discovery loop followed by the two
write/read passes).

The BACnet stack is an external library.  Its answers are inputs of the model:

* `BACNET_ADDRESS` is an abstract type `Addr`, and `address_match` is a
  parameter;
* every pass of the poll loop is given the clock reading `time(NULL)` returns
  and the frame `datalink_receive` delivers, already decoded the way
  `npdu_handler` dispatches it to one of the handlers registered by
  `init_service_handlers`;
* `address_bind_request`, `Send_Write_Property_Request`,
  `Send_Read_Property_Request` and `tsm_invoke_id_free` answer from a script
  indexed by the call site.

The calls `main` makes to send a request, to query the address table or the
transaction state machine, and to print, are recorded in order in
`State.trace`, together with every return of `handler_loop` to `main`.  The
calls of `MyIAmHandler` to `address_add_binding` are recorded in
`State.address_table`, its diagnostics in `State.stderr`.  Sleeps, timer ticks
and clock reads leave no record, nor do the set-up calls at the start of
`main` (`Device_Set_Object_Instance_Number`, `init_service_handlers`,
`address_init`, `dlenv_init`, `atexit`, `datalink_get_broadcast_address`).
-/

namespace BACnetDemo

/-! ## Data model -/

/-- Names of the three completion flags whose address `main` passes to
`handler_loop` (`&write_handled`, `&read_handled`, `&i_am_handled`). -/
inductive Flag
  | write_handled
  | read_handled
  | i_am_handled
  deriving DecidableEq, Repr

/-- Object types used by `main` (constants of the BACnet stack). -/
inductive OBJECT_TYPE
  | OBJECT_BINARY_INPUT
  | OBJECT_BINARY_OUTPUT
  deriving DecidableEq, Repr

/-- Messages `main` prints with `printf`. -/
inductive Msg
  | failed_to_locate
  | located (device_id : Nat)
  | setting_and_clearing
  | failed_to_toggle
  | failed_to_read
  | input_was_not (i : Nat)
  deriving DecidableEq, Repr

/-- Text of each message, as in the format strings of `main`. -/
def Msg.text : Msg → String
  | .failed_to_locate => "Failed to locate a device on the network!\n"
  | .located d => "Located and bound to ID " ++ toString d ++ "\n"
  | .setting_and_clearing => "Setting and clearing relay and checking loopback.\n"
  | .failed_to_toggle => "Failed to toggle relay!\n"
  | .failed_to_read => "\nFailed to read input!\n"
  | .input_was_not i => "ERROR! Input was not " ++ toString i ++ "\n"

/-- Calls made by `main`, and returns of `handler_loop` to `main`. -/
inductive Event
  | address_bind_request (device_id : Nat) (found : Bool)
  | Send_WhoIs
  | handler_loop (check : Flag) (ret : Int)
  | Send_Write_Property_Request (device_id : Nat) (object_type : OBJECT_TYPE)
      (object_instance : Nat) (value : Nat) (invoke_id : Nat)
  | Send_Read_Property_Request (device_id : Nat) (object_type : OBJECT_TYPE)
      (object_instance : Nat) (invoke_id : Nat)
  | tsm_invoke_id_free (invoke_id : Nat) (answer : Bool)
  | tsm_free_invoke_id (invoke_id : Nat)
  | printf (m : Msg)
  deriving DecidableEq, Repr

/-- Lines `MyIAmHandler` writes to `stderr`. -/
inductive Diagnostic (Addr : Type)
  | received_from (device_id : Nat) (src : Addr)
  | unable_to_decode
  deriving DecidableEq, Repr

/-- Record `struct address_entry`, the type of the global `device_info`. -/
structure address_entry (Addr : Type) where
  flags : Nat
  device_id : Nat
  last_val : Nat
  max_apdu : Nat
  address : Addr
  deriving DecidableEq, Repr

/-- Globals of the program (`req_id`, `device_info`, the three flags) and the
records of what it has done: `address_table` lists the bindings passed to
`address_add_binding`, `stderr` the diagnostics, `trace` the calls of `main`. -/
structure State (Addr : Type) where
  req_id : Nat
  device_info : address_entry Addr
  write_handled : Nat
  read_handled : Nat
  i_am_handled : Nat
  address_table : List (Nat × Nat × Addr)
  stderr : List (Diagnostic Addr)
  trace : List Event
  deriving DecidableEq, Repr

/-- Frame as `npdu_handler` dispatches it: which registered handler runs, with
which decoded arguments.  `i_am` carries what `iam_decode_service_request`
returns (`len`, `device_id`, `max_apdu`); `read_ack` carries the value the two
decode calls leave in `value.type.Enumerated`; `other` is a frame that reaches
none of the three handlers of this file. -/
inductive Frame (Addr : Type)
  | i_am (len : Int) (device_id : Nat) (max_apdu : Nat) (src : Addr)
  | write_ack (src : Addr) (invoke_id : Nat)
  | read_ack (src : Addr) (invoke_id : Nat) (enumerated : Nat)
  | other
  deriving DecidableEq, Repr

/-- One pass of the `for (;;)` of `handler_loop`: the clock reading and what
`datalink_receive` delivers (`none` when it returns 0 bytes). -/
structure Iter (Addr : Type) where
  current_seconds : Int
  pdu : Option (Frame Addr)
  deriving DecidableEq, Repr

/-- Environment of one call of `handler_loop`: the value `apdu_timeout()`
returns (in milliseconds; the result of the second call is the one used), the
clock reading `time(NULL)` on entry, and the successive passes. -/
structure Poll (Addr : Type) where
  apdu_timeout : Nat
  last_seconds : Int
  iters : List (Iter Addr)
  deriving DecidableEq, Repr

/-- Environment of one pass of the discovery loop: the answer of
`address_bind_request` (`out` holds what it stores through its two out
parameters, `none` when it stores nothing) and the poll that follows when the
answer is `false`. -/
structure Round (Addr : Type) where
  found : Bool
  out : Option (Nat × Addr)
  poll : Poll Addr
  deriving DecidableEq, Repr

/-- Environment of one confirmed request: the invoke id the send call
returns, the poll that follows, and the answer of `tsm_invoke_id_free` should
`main` ask. -/
structure Exchange (Addr : Type) where
  invoke_id : Nat
  poll : Poll Addr
  id_free : Bool
  deriving DecidableEq, Repr

/-- Environment of a whole run of `main`: the passes of the discovery loop,
and the write and the read exchange of each pass `i` of the second loop. -/
structure World (Addr : Type) where
  discovery : List (Round Addr)
  write : Nat → Exchange Addr
  read : Nat → Exchange Addr

variable {Addr : Type}

/-- Appends one event to the trace. -/
def State.log (s : State Addr) (e : Event) : State Addr :=
  { s with trace := s.trace ++ [e] }

/-- Value of the flag `*check`. -/
def Flag.get (check : Flag) (s : State Addr) : Nat :=
  match check with
  | .write_handled => s.write_handled
  | .read_handled => s.read_handled
  | .i_am_handled => s.i_am_handled

/-- Assignment `*check = 0`. -/
def Flag.clear (check : Flag) (s : State Addr) : State Addr :=
  match check with
  | .write_handled => { s with write_handled := 0 }
  | .read_handled => { s with read_handled := 0 }
  | .i_am_handled => { s with i_am_handled := 0 }

/-! ## Handlers -/

/-- Constant `BAC_ADDRESS_MULT`. -/
def BAC_ADDRESS_MULT : Nat := 1

/-- Handler `MyWritePropertyAckHandler(src, invoke_id)`. -/
def MyWritePropertyAckHandler (address_match : Addr → Addr → Bool)
    (src : Addr) (invoke_id : Nat) (s : State Addr) : State Addr :=
  if address_match s.device_info.address src && (invoke_id == s.req_id) then
    { s with write_handled := 1 }
  else s

/-- Handler `MyReadPropertyAckHandler`; `enumerated` is `value.type.Enumerated`
after the two decode calls. -/
def MyReadPropertyAckHandler (address_match : Addr → Addr → Bool)
    (src : Addr) (invoke_id : Nat) (enumerated : Nat) (s : State Addr) : State Addr :=
  if address_match s.device_info.address src && (invoke_id == s.req_id) then
    { s with
      device_info := { s.device_info with last_val := enumerated }
      read_handled := 1 }
  else s

/-- Handler `MyIAmHandler`; `len`, `device_id`, `max_apdu` are the results of
`iam_decode_service_request`. -/
def MyIAmHandler (len : Int) (device_id : Nat) (max_apdu : Nat) (src : Addr)
    (s : State Addr) : State Addr :=
  if len ≠ -1 then
    { s with
      stderr := s.stderr ++ [.received_from device_id src]
      device_info :=
        { s.device_info with
          flags := BAC_ADDRESS_MULT
          device_id := device_id
          max_apdu := max_apdu
          address := src }
      i_am_handled := 1
      address_table := s.address_table ++ [(device_id, max_apdu, src)] }
  else
    { s with stderr := s.stderr ++ [.unable_to_decode] }

/-- Dispatch done by `npdu_handler` with the handlers `init_service_handlers`
registers. -/
def npdu_handler (address_match : Addr → Addr → Bool) (f : Frame Addr)
    (s : State Addr) : State Addr :=
  match f with
  | .i_am len device_id max_apdu src => MyIAmHandler len device_id max_apdu src s
  | .write_ack src invoke_id => MyWritePropertyAckHandler address_match src invoke_id s
  | .read_ack src invoke_id enumerated =>
      MyReadPropertyAckHandler address_match src invoke_id enumerated s
  | .other => s

/-! ## Poll loop -/

/-- Receive and dispatch step of one pass: `datalink_receive`, then
`npdu_handler` when `pdu_len` is not zero. -/
def receive (address_match : Addr → Addr → Bool) (it : Iter Addr)
    (s : State Addr) : State Addr :=
  match it.pdu with
  | some f => npdu_handler address_match f s
  | none => s

/-- Loop `for (;;)` of `handler_loop`, run on the given passes.  Returns `ret`,
the state, and the passes not used; `none` when the passes run out before the
loop exits. -/
def handler_loop_for (address_match : Addr → Addr → Bool) (check : Flag)
    (timeout_seconds : Int) (last_seconds : Int) :
    List (Iter Addr) → State Addr → Option (Int × State Addr × List (Iter Addr))
  | [], _ => none
  | it :: rest, s =>
    let s1 := receive address_match it s
    if check.get s1 ≠ 0 then
      some (0, check.clear s1, rest)
    else if it.current_seconds - last_seconds > timeout_seconds then
      some (1, s1, rest)
    else
      handler_loop_for address_match check timeout_seconds last_seconds rest s1

/-- Function `handler_loop(src, check)`. -/
def handler_loop (address_match : Addr → Addr → Bool) (p : Poll Addr) (check : Flag)
    (s : State Addr) : Option (Int × State Addr × List (Iter Addr)) :=
  handler_loop_for address_match check ((p.apdu_timeout / 1000 : Nat) : Int)
    p.last_seconds p.iters s

/-! ## `main` -/

/-- Initial globals: everything zero; `zero_address` is the all-zero
`BACNET_ADDRESS`. -/
def init (zero_address : Addr) : State Addr :=
  { req_id := 0
    device_info :=
      { flags := 0, device_id := 0, last_val := 0, max_apdu := 0, address := zero_address }
    write_handled := 0
    read_handled := 0
    i_am_handled := 0
    address_table := []
    stderr := []
    trace := [] }

/-- Call `address_bind_request(device_info.device_id, &device_info.max_apdu,
&device_info.address)` with the scripted answer. -/
def address_bind_request (r : Round Addr) (s : State Addr) : State Addr :=
  let s1 : State Addr :=
    match r.out with
    | some (max_apdu, address) =>
        { s with device_info := { s.device_info with max_apdu := max_apdu, address := address } }
    | none => s
  s1.log (.address_bind_request s.device_info.device_id r.found)

/-- How the discovery loop ends: `return 1` or `break`. -/
inductive Located (Addr : Type)
  | failed (s : State Addr)
  | bound (s : State Addr)
  deriving DecidableEq, Repr

/-- Discovery loop of `main` (the first `for (;;)`), started with the given
`err_cnt`. -/
def locate (address_match : Addr → Addr → Bool) :
    Int → List (Round Addr) → State Addr → Option (Located Addr)
  | _, [], _ => none
  | err_cnt, r :: rs, s =>
    let s1 := address_bind_request r s
    if !r.found then
      let s2 := s1.log .Send_WhoIs
      match handler_loop address_match r.poll .i_am_handled s2 with
      | none => none
      | some (ret, s3, _) =>
        let s4 := s3.log (.handler_loop .i_am_handled ret)
        let err_cnt1 := err_cnt + ret
        if err_cnt1 > 4 then
          some (.failed (s4.log (.printf .failed_to_locate)))
        else
          locate address_match err_cnt1 rs s4
    else
      some (.bound s1)

/-- Assignment `req_id = Send_Write_Property_Request(device_info.device_id,
OBJECT_BINARY_OUTPUT, 1, PROP_PRESENT_VALUE, &value, 0, BACNET_ARRAY_ALL)` with
`value.type.Enumerated = i`. -/
def send_write (i : Nat) (invoke_id : Nat) (s : State Addr) : State Addr :=
  ({ s with req_id := invoke_id } : State Addr).log
    (.Send_Write_Property_Request s.device_info.device_id .OBJECT_BINARY_OUTPUT 1 i invoke_id)

/-- Assignment `req_id = Send_Read_Property_Request(device_info.device_id,
OBJECT_BINARY_INPUT, 1, PROP_PRESENT_VALUE, BACNET_ARRAY_ALL)`. -/
def send_read (invoke_id : Nat) (s : State Addr) : State Addr :=
  ({ s with req_id := invoke_id } : State Addr).log
    (.Send_Read_Property_Request s.device_info.device_id .OBJECT_BINARY_INPUT 1 invoke_id)

/-- How one pass of the write/read loop ends: `return code` or on to the next
pass. -/
inductive Step (Addr : Type)
  | exit (code : Int) (s : State Addr)
  | next (s : State Addr)
  deriving DecidableEq, Repr

/-- Statement `if (ret && !tsm_invoke_id_free(req_id)) { tsm_free_invoke_id(req_id);
printf(m); return 1; }`, where `ret` is what `handler_loop` has just returned.
The transaction manager is asked only when `ret` is not zero. -/
def give_up (ret : Int) (id_free : Bool) (m : Msg) (s : State Addr) : Step Addr :=
  if ret ≠ 0 then
    let s1 := s.log (.tsm_invoke_id_free s.req_id id_free)
    if !id_free then
      .exit 1 ((s1.log (.tsm_free_invoke_id s1.req_id)).log (.printf m))
    else
      .next s1
  else
    .next s

/-- Second half of the body of the loop `for (i = 0; i < 2; i++)` of `main`,
from `usleep(1000000)` on: the read request, its poll, and the comparison of
`device_info.last_val` with `i`. -/
def read_back (address_match : Addr → Addr → Bool) (er : Exchange Addr)
    (i : Nat) (s : State Addr) : Option (Step Addr) :=
  let s1 := send_read er.invoke_id s
  match handler_loop address_match er.poll .read_handled s1 with
  | none => none
  | some (ret, s2, _) =>
    match give_up ret er.id_free .failed_to_read (s2.log (.handler_loop .read_handled ret)) with
    | .exit code s3 => some (.exit code s3)
    | .next s3 =>
      if s3.device_info.last_val ≠ i then
        some (.exit 1 (s3.log (.printf (.input_was_not i))))
      else
        some (.next s3)

/-- Body of the loop `for (i = 0; i < 2; i++)` of `main`: the write request
and its poll, then `read_back`. -/
def rw_iteration (address_match : Addr → Addr → Bool) (ew er : Exchange Addr)
    (i : Nat) (s : State Addr) : Option (Step Addr) :=
  let s1 := send_write i ew.invoke_id s
  match handler_loop address_match ew.poll .write_handled s1 with
  | none => none
  | some (ret, s2, _) =>
    match give_up ret ew.id_free .failed_to_toggle (s2.log (.handler_loop .write_handled ret)) with
    | .exit code s3 => some (.exit code s3)
    | .next s3 => read_back address_match er i s3

/-- Loop `for (i = 0; i < 2; i++)` followed by `return 0`, with `n` passes
left to run from index `i`. -/
def rw_loop (address_match : Addr → Addr → Bool) (w : World Addr) :
    Nat → Nat → State Addr → Option (Int × State Addr)
  | 0, _, s => some (0, s)
  | n + 1, i, s =>
    match rw_iteration address_match (w.write i) (w.read i) i s with
    | none => none
    | some (.exit code s1) => some (code, s1)
    | some (.next s1) => rw_loop address_match w n (i + 1) s1

/-- The two `printf` calls between the loops of `main`. -/
def announce (s : State Addr) : State Addr :=
  (s.log (.printf (.located s.device_info.device_id))).log (.printf .setting_and_clearing)

/-- Function `main`: exit status and final state, `none` when the scripted
environment ends before `main` returns. -/
def main (address_match : Addr → Addr → Bool) (zero_address : Addr)
    (w : World Addr) : Option (Int × State Addr) :=
  match locate address_match 0 w.discovery (init zero_address) with
  | none => none
  | some (.failed s) => some (1, s)
  | some (.bound s) => rw_loop address_match w 2 0 (announce s)

/-! ## Notions used to state the properties -/

/-- State after the receive and dispatch steps of the given passes. -/
def receive_all (address_match : Addr → Addr → Bool) :
    List (Iter Addr) → State Addr → State Addr
  | [], s => s
  | it :: rest, s => receive_all address_match rest (receive address_match it s)

/-- Says that the flag is zero after the receive and dispatch step of each of
the given passes. -/
def flag_stays_zero (address_match : Addr → Addr → Bool) (check : Flag) :
    List (Iter Addr) → State Addr → Bool
  | [], _ => true
  | it :: rest, s =>
    decide (check.get (receive address_match it s) = 0) &&
      flag_stays_zero address_match check rest (receive address_match it s)

/-- Write and read requests, reduced to what is asked: object type, object
instance, and the value written (`none` for a read). -/
def Event.request : Event → Option (OBJECT_TYPE × Nat × Option Nat)
  | .Send_Write_Property_Request _ object_type object_instance value _ =>
      some (object_type, object_instance, some value)
  | .Send_Read_Property_Request _ object_type object_instance _ =>
      some (object_type, object_instance, none)
  | _ => none

/-- Events the discovery loop can record. -/
def Event.of_discovery : Event → Bool
  | .address_bind_request _ _ => true
  | .Send_WhoIs => true
  | .handler_loop .i_am_handled _ => true
  | .printf .failed_to_locate => true
  | _ => false

/-- Returns of `handler_loop` to the discovery loop, in order. -/
def discovery_polls (t : List Event) : List Int :=
  t.filterMap fun e =>
    match e with
    | .handler_loop .i_am_handled ret => some ret
    | _ => none

/-- Number of polls of the discovery loop that timed out. -/
def discovery_timeouts (t : List Event) : Nat :=
  (discovery_polls t).countP fun ret => decide (ret ≠ 0)

/-- Number of Who-Is broadcasts. -/
def who_is_count (t : List Event) : Nat :=
  t.countP fun e =>
    match e with
    | .Send_WhoIs => true
    | _ => false

/-- Says that the frame is an I-Am that `iam_decode_service_request` decodes. -/
def Frame.decoded_i_am : Frame Addr → Bool
  | .i_am len _ _ _ => decide (len ≠ -1)
  | _ => false

/-- Says that no pass delivers an I-Am that decodes. -/
def no_i_am (iters : List (Iter Addr)) : Bool :=
  iters.all fun it =>
    match it.pdu with
    | some f => !f.decoded_i_am
    | none => true

/-- Says that some pass reads the clock beyond the timeout of the poll. -/
def clock_runs_out (p : Poll Addr) : Bool :=
  p.iters.any fun it =>
    decide (it.current_seconds - p.last_seconds > ((p.apdu_timeout / 1000 : Nat) : Int))

/-- Pass of the discovery loop in which no device replies: no binding, no
I-Am that decodes, and the clock runs beyond the timeout. -/
def Round.silent (r : Round Addr) : Bool :=
  !r.found && no_i_am r.poll.iters && clock_runs_out r.poll

/-- State in which the discovery loop ends. -/
def Located.state : Located Addr → State Addr
  | .failed s => s
  | .bound s => s

/-- Says that the discovery loop ended with `return 1`. -/
def Located.is_failed : Located Addr → Bool
  | .failed _ => true
  | .bound _ => false

/-- State in which a pass of the write/read loop ends. -/
def Step.state : Step Addr → State Addr
  | .exit _ s => s
  | .next s => s

/-- Events between the return `ret` of a poll and the next step of `main` when
`main` goes on: none when the poll returned 0, else the query
`tsm_invoke_id_free(q)` answered `true`. -/
def after_poll (ret : Int) (q : Nat) : List Event :=
  if ret = 0 then [] else [.tsm_invoke_id_free q true]

/-- Events of one confirmed request: the request, the return of the poll, and
what `give_up` records. -/
def exchange_events (req : Event) (check : Flag) (timed_out : Bool) (q : Nat)
    (id_free : Bool) (m : Msg) : List Event :=
  if timed_out then
    if id_free then [req, .handler_loop check 1, .tsm_invoke_id_free q true]
    else [req, .handler_loop check 1, .tsm_invoke_id_free q false,
      .tsm_free_invoke_id q, .printf m]
  else [req, .handler_loop check 0]

/-- What happened in one pass of the write/read loop: the device ids the two
requests were addressed to, whether each poll timed out, and whether the
value compared was the expected one. -/
structure Seen where
  write_device : Nat
  write_timed_out : Bool
  read_device : Nat
  read_timed_out : Bool
  value_ok : Bool

/-- Says that `main` returns in the pass. -/
def Seen.exits (o : Seen) (ew er : Exchange Addr) : Bool :=
  (o.write_timed_out && !ew.id_free) || (o.read_timed_out && !er.id_free) || !o.value_ok

/-- Events of the pass `i`. -/
def Seen.events (o : Seen) (ew er : Exchange Addr) (i : Nat) : List Event :=
  exchange_events
      (.Send_Write_Property_Request o.write_device .OBJECT_BINARY_OUTPUT 1 i ew.invoke_id)
      .write_handled o.write_timed_out ew.invoke_id ew.id_free .failed_to_toggle ++
    if o.write_timed_out && !ew.id_free then []
    else
      exchange_events
          (.Send_Read_Property_Request o.read_device .OBJECT_BINARY_INPUT 1 er.invoke_id)
          .read_handled o.read_timed_out er.invoke_id er.id_free .failed_to_read ++
        if o.read_timed_out && !er.id_free then []
        else if o.value_ok then []
        else [.printf (.input_was_not i)]

/-- State in which `main` goes on after a poll for `check` that returned `ret`
in state `a`: the return is recorded, and so is the answer `true` of
`tsm_invoke_id_free` when `ret` is not 0. -/
def resume (check : Flag) (ret : Int) (a : State Addr) : State Addr :=
  { a with trace := a.trace ++ [.handler_loop check ret] ++ after_poll ret a.req_id }

/-- Says that the frame, dispatched while `device_info.address` is `address`
and the request id is `req_id`, is accepted by the handler that sets the flag
`check`: a write acknowledgment for `write_handled`, a read acknowledgment for
`read_handled`, each from a matching address and with invoke id `req_id`; an
I-Am that decodes for `i_am_handled`. -/
def Frame.acknowledges (address_match : Addr → Addr → Bool) (check : Flag) (address : Addr)
    (req_id : Nat) : Frame Addr → Bool
  | .write_ack src invoke_id =>
      decide (check = .write_handled) && address_match address src && (invoke_id == req_id)
  | .read_ack src invoke_id _ =>
      decide (check = .read_handled) && address_match address src && (invoke_id == req_id)
  | .i_am len _ _ _ => decide (check = .i_am_handled) && decide (len ≠ -1)
  | .other => false

/-- Says that the poll `p`, entered in state `s` and left in state `s1` with
the passes `rest` unused, returned in a pass that delivered a frame accepted
for the request `s.req_id`, the flag having stayed zero in the passes before;
when that frame is a read acknowledgment, `device_info.last_val` is the value
it carries. -/
def acknowledged (address_match : Addr → Addr → Bool) (p : Poll Addr) (check : Flag)
    (s s1 : State Addr) (rest : List (Iter Addr)) : Prop :=
  ∃ pre it f, p.iters = pre ++ it :: rest ∧
    flag_stays_zero address_match check pre s = true ∧
    it.pdu = some f ∧
    f.acknowledges address_match check
      (receive_all address_match pre s).device_info.address s.req_id = true ∧
    ∀ src invoke_id v, f = .read_ack src invoke_id v → s1.device_info.last_val = v

/-! ## Concrete runs -/

/-- Address comparison used in the concrete runs: equality of station numbers. -/
def same_station (a b : Nat) : Bool := a == b

/-- Globals in the middle of a write exchange with the device at station 1:
request 10 is outstanding and no flag is set. -/
def awaiting_write : State Nat :=
  { req_id := 10
    device_info := { flags := 1, device_id := 7, last_val := 0, max_apdu := 480, address := 1 }
    write_handled := 0
    read_handled := 0
    i_am_handled := 0
    address_table := [(7, 480, 1)]
    stderr := [.received_from 7 1]
    trace := [] }

/-- Says that the discovery loop polled at least five times and that the five
most recent polls all timed out. -/
def last_five_timed_out (t : List Event) : Bool :=
  decide (5 ≤ (discovery_polls t).length) &&
    ((discovery_polls t).reverse.take 5).all fun ret => decide (ret ≠ 0)

/-- Poll with a 3000 ms request timeout, entered at clock reading 100, in which
nothing is received and the clock then reads 104. -/
def quiet_poll : Poll Nat :=
  ⟨3000, 100, [⟨104, none⟩]⟩

/-- Poll in which the given frame is received in the first pass. -/
def poll_with (f : Frame Nat) : Poll Nat :=
  ⟨3000, 100, [⟨100, some f⟩, ⟨104, none⟩]⟩

/-- Device 7 at station 1 that acknowledges every write and echoes it on the
read: pass `i` writes with invoke id `10 + i` and reads with `20 + i`. -/
def echo_write (i : Nat) : Exchange Nat :=
  ⟨10 + i, poll_with (.write_ack 1 (10 + i)), false⟩

/-- Read exchange of the echoing device. -/
def echo_read (i : Nat) : Exchange Nat :=
  ⟨20 + i, poll_with (.read_ack 1 (20 + i) i), false⟩

/-- Discovery in which device 7 at station 1 answers the first Who-Is. -/
def found_at_once : List (Round Nat) :=
  [⟨false, none, poll_with (.i_am 5 7 480 1)⟩, ⟨true, some (480, 1), quiet_poll⟩]

/-- Run with the echoing device. -/
def echo_world : World Nat where
  discovery := found_at_once
  write := echo_write
  read := echo_read

/-- Run in which no device ever replies. -/
def silent_world : World Nat where
  discovery := List.replicate 6 ⟨false, none, quiet_poll⟩
  write := echo_write
  read := echo_read

/-- Run in which two polls time out, the third receives an I-Am but
`address_bind_request` keeps answering `false`, and three more polls time
out. -/
def cumulative_world : World Nat where
  discovery :=
    [⟨false, none, quiet_poll⟩, ⟨false, none, quiet_poll⟩,
      ⟨false, none, poll_with (.i_am 5 7 480 1)⟩,
      ⟨false, none, quiet_poll⟩, ⟨false, none, quiet_poll⟩, ⟨false, none, quiet_poll⟩]
  write := echo_write
  read := echo_read

/-- Run in which the device is found and answers the two requests of pass 0
with frames that reach none of the handlers (an error reply, say): no flag is
set, the polls time out, and the transaction manager reports the invoke ids
free.  In pass 1 the device behaves like the echoing one. -/
def unacknowledged_world : World Nat where
  discovery := found_at_once
  write := fun i => if i = 0 then ⟨10, poll_with .other, true⟩ else echo_write i
  read := fun i => if i = 0 then ⟨20, poll_with .other, true⟩ else echo_read i

/-- Run in which the device reads back 1 after 0 was written. -/
def stuck_input_world : World Nat where
  discovery := found_at_once
  write := echo_write
  read := fun i => ⟨20 + i, poll_with (.read_ack 1 (20 + i) 1), false⟩

/-- Final state of the run in which no device ever replies. -/
def silent_end : State Nat :=
  { req_id := 0
    device_info := { flags := 0, device_id := 0, last_val := 0, max_apdu := 0, address := 0 }
    write_handled := 0
    read_handled := 0
    i_am_handled := 0
    address_table := []
    stderr := []
    trace :=
      [.address_bind_request 0 false, .Send_WhoIs, .handler_loop .i_am_handled 1,
        .address_bind_request 0 false, .Send_WhoIs, .handler_loop .i_am_handled 1,
        .address_bind_request 0 false, .Send_WhoIs, .handler_loop .i_am_handled 1,
        .address_bind_request 0 false, .Send_WhoIs, .handler_loop .i_am_handled 1,
        .address_bind_request 0 false, .Send_WhoIs, .handler_loop .i_am_handled 1,
        .printf .failed_to_locate] }

/-- State of the run with the echoing device when the discovery loop ends. -/
def echo_bound : State Nat :=
  { req_id := 0
    device_info := { flags := 1, device_id := 7, last_val := 0, max_apdu := 480, address := 1 }
    write_handled := 0
    read_handled := 0
    i_am_handled := 0
    address_table := [(7, 480, 1)]
    stderr := [.received_from 7 1]
    trace :=
      [.address_bind_request 0 false, .Send_WhoIs, .handler_loop .i_am_handled 0,
        .address_bind_request 7 true] }

/-- Final state of the run with the echoing device. -/
def echo_end : State Nat :=
  { echo_bound with
    req_id := 21
    device_info := { echo_bound.device_info with last_val := 1 }
    trace := echo_bound.trace ++
      [.printf (.located 7), .printf .setting_and_clearing,
        .Send_Write_Property_Request 7 .OBJECT_BINARY_OUTPUT 1 0 10,
        .handler_loop .write_handled 0,
        .Send_Read_Property_Request 7 .OBJECT_BINARY_INPUT 1 20,
        .handler_loop .read_handled 0,
        .Send_Write_Property_Request 7 .OBJECT_BINARY_OUTPUT 1 1 11,
        .handler_loop .write_handled 0,
        .Send_Read_Property_Request 7 .OBJECT_BINARY_INPUT 1 21,
        .handler_loop .read_handled 0] }

/-- Final state of the run in which the requests of pass 0 are never
acknowledged and the transaction manager reports the invoke ids free. -/
def unacknowledged_end : State Nat :=
  { echo_bound with
    req_id := 21
    device_info := { echo_bound.device_info with last_val := 1 }
    trace := echo_bound.trace ++
      [.printf (.located 7), .printf .setting_and_clearing,
        .Send_Write_Property_Request 7 .OBJECT_BINARY_OUTPUT 1 0 10,
        .handler_loop .write_handled 1, .tsm_invoke_id_free 10 true,
        .Send_Read_Property_Request 7 .OBJECT_BINARY_INPUT 1 20,
        .handler_loop .read_handled 1, .tsm_invoke_id_free 20 true,
        .Send_Write_Property_Request 7 .OBJECT_BINARY_OUTPUT 1 1 11,
        .handler_loop .write_handled 0,
        .Send_Read_Property_Request 7 .OBJECT_BINARY_INPUT 1 21,
        .handler_loop .read_handled 0] }

/-- Run in which the device is found, the first write is never acknowledged,
and the transaction manager reports the request outstanding. -/
def refused_world : World Nat where
  discovery := found_at_once
  write := fun _ => ⟨10, quiet_poll, false⟩
  read := echo_read

/-- Final state of the run in which the first write is never acknowledged and
the request is reported outstanding. -/
def refused_end : State Nat :=
  { echo_bound with
    req_id := 10
    trace := echo_bound.trace ++
      [.printf (.located 7), .printf .setting_and_clearing,
        .Send_Write_Property_Request 7 .OBJECT_BINARY_OUTPUT 1 0 10,
        .handler_loop .write_handled 1, .tsm_invoke_id_free 10 false,
        .tsm_free_invoke_id 10, .printf .failed_to_toggle] }

/-- Run with the echoing device in which, in pass 1, a read acknowledgment
carrying the invoke id 11 of the write and the value 1 arrives while the
write is awaited, and nothing at all is received while the read is awaited. -/
def stale_world : World Nat where
  discovery := found_at_once
  write := fun i =>
    if i = 0 then echo_write 0
    else
      ⟨11, ⟨3000, 100, [⟨100, some (.read_ack 1 11 1)⟩, ⟨100, some (.write_ack 1 11)⟩,
        ⟨104, none⟩]⟩, false⟩
  read := fun i => if i = 0 then echo_read 0 else ⟨21, quiet_poll, false⟩

/-! ## The poll loop -/

theorem receive_all_append (am : Addr → Addr → Bool) (xs ys : List (Iter Addr))
    (s : State Addr) :
    receive_all am (xs ++ ys) s = receive_all am ys (receive_all am xs s) := by
  induction xs generalizing s with
  | nil => rfl
  | cons x xs ih => simp [receive_all, ih]

theorem flag_stays_zero_append (am : Addr → Addr → Bool) (check : Flag)
    (xs ys : List (Iter Addr)) (s : State Addr) :
    flag_stays_zero am check (xs ++ ys) s =
      (flag_stays_zero am check xs s && flag_stays_zero am check ys (receive_all am xs s)) := by
  induction xs generalizing s with
  | nil => simp [flag_stays_zero, receive_all]
  | cons x xs ih => simp [flag_stays_zero, receive_all, ih, Bool.and_assoc]

/-- No handler ever resets a completion flag that is set. -/
theorem receive_keeps_flag (am : Addr → Addr → Bool) (check : Flag) (it : Iter Addr)
    (s : State Addr) (h : check.get s ≠ 0) : check.get (receive am it s) ≠ 0 := by
  unfold receive
  cases hp : it.pdu with
  | none => simpa using h
  | some f =>
    cases f <;> cases check <;>
      simp only [npdu_handler, MyIAmHandler, MyWritePropertyAckHandler,
        MyReadPropertyAckHandler, Flag.get] at h ⊢ <;>
      first
        | exact h
        | (split <;> simp_all)

/-- While the flag stays zero and the clock stays within the timeout, the loop
goes on to the next pass. -/
theorem handler_loop_for_append (am : Addr → Addr → Bool) (check : Flag) (T t0 : Int)
    (pre tail : List (Iter Addr)) (s : State Addr)
    (hzero : flag_stays_zero am check pre s = true)
    (hclock : ∀ x ∈ pre, x.current_seconds - t0 ≤ T) :
    handler_loop_for am check T t0 (pre ++ tail) s =
      handler_loop_for am check T t0 tail (receive_all am pre s) := by
  induction pre generalizing s with
  | nil => rfl
  | cons x xs ih =>
    simp only [flag_stays_zero, Bool.and_eq_true, decide_eq_true_eq] at hzero
    have hx : ¬ (x.current_seconds - t0 > T) := not_lt.mpr (hclock x (List.mem_cons_self _ _))
    simp only [List.cons_append, handler_loop_for, hzero.1, ne_eq, not_true_eq_false,
      if_false, hx, receive_all]
    exact ih _ hzero.2 (fun y hy => hclock y (List.mem_cons_of_mem _ hy))

/-- Every return of the loop happens at some pass, reached with the flag zero
and the clock within the timeout at every earlier pass. -/
theorem handler_loop_for_some (am : Addr → Addr → Bool) (check : Flag) (T t0 : Int)
    (iters : List (Iter Addr)) (s : State Addr) (r : Int) (s' : State Addr)
    (rest : List (Iter Addr))
    (h : handler_loop_for am check T t0 iters s = some (r, s', rest)) :
    ∃ pre it, iters = pre ++ it :: rest ∧
      flag_stays_zero am check pre s = true ∧
      (∀ x ∈ pre, x.current_seconds - t0 ≤ T) ∧
      ((r = 0 ∧ check.get (receive am it (receive_all am pre s)) ≠ 0 ∧
          s' = check.clear (receive am it (receive_all am pre s))) ∨
        (r = 1 ∧ check.get (receive am it (receive_all am pre s)) = 0 ∧
          it.current_seconds - t0 > T ∧ s' = receive am it (receive_all am pre s))) := by
  induction iters generalizing s with
  | nil => simp [handler_loop_for] at h
  | cons x xs ih =>
    simp only [handler_loop_for] at h
    by_cases hf : check.get (receive am x s) = 0
    · by_cases ht : x.current_seconds - t0 > T
      · simp only [hf, ne_eq, not_true_eq_false, if_false, ht, if_true, Option.some.injEq,
          Prod.mk.injEq] at h
        obtain ⟨h1, h2, h3⟩ := h
        subst h1 h2 h3
        exact ⟨[], x, rfl, rfl, by simp, Or.inr ⟨rfl, hf, ht, rfl⟩⟩
      · simp only [hf, ne_eq, not_true_eq_false, if_false, ht] at h
        obtain ⟨pre, it, h1, h2, h3, h4⟩ := ih _ h
        refine ⟨x :: pre, it, by simp [h1], ?_, ?_, ?_⟩
        · simp [flag_stays_zero, hf, h2]
        · intro y hy
          rcases List.mem_cons.mp hy with rfl | hy
          · exact not_lt.mp ht
          · exact h3 y hy
        · simpa [receive_all] using h4
    · simp only [ne_eq, hf, not_false_eq_true, if_true, Option.some.injEq,
        Prod.mk.injEq] at h
      obtain ⟨h1, h2, h3⟩ := h
      subst h1 h2 h3
      exact ⟨[], x, rfl, rfl, by simp, Or.inl ⟨rfl, hf, rfl⟩⟩

theorem flag_get_clear (check : Flag) (s : State Addr) : check.get (check.clear s) = 0 := by
  cases check <;> rfl

/-- A receive step keeps `req_id` and the trace. -/
theorem receive_effect (am : Addr → Addr → Bool) (it : Iter Addr) (s : State Addr) :
    (receive am it s).req_id = s.req_id ∧ (receive am it s).trace = s.trace := by
  unfold receive
  cases it.pdu with
  | none => exact ⟨rfl, rfl⟩
  | some f =>
    cases f <;>
      simp only [npdu_handler, MyIAmHandler, MyWritePropertyAckHandler,
        MyReadPropertyAckHandler] <;>
      first
        | exact ⟨rfl, rfl⟩
        | exact ⟨trivial, trivial⟩
        | (split <;> exact ⟨rfl, rfl⟩)

theorem receive_all_effect (am : Addr → Addr → Bool) (xs : List (Iter Addr)) (s : State Addr) :
    (receive_all am xs s).req_id = s.req_id ∧ (receive_all am xs s).trace = s.trace := by
  induction xs generalizing s with
  | nil => exact ⟨rfl, rfl⟩
  | cons x xs ih =>
    obtain ⟨h1, h2⟩ := receive_effect am x s
    obtain ⟨h3, h4⟩ := ih (receive am x s)
    exact ⟨by simp [receive_all, h3, h1], by simp [receive_all, h4, h2]⟩

theorem flag_clear_effect (check : Flag) (s : State Addr) :
    (check.clear s).req_id = s.req_id ∧ (check.clear s).trace = s.trace ∧
      (check.clear s).device_info = s.device_info := by
  cases check <;> exact ⟨rfl, rfl, rfl⟩

/-- A poll returns 0 or 1 and keeps `req_id` and the trace. -/
theorem handler_loop_effect (am : Addr → Addr → Bool) (p : Poll Addr) (check : Flag)
    (s : State Addr) (r : Int) (s' : State Addr) (rest : List (Iter Addr))
    (h : handler_loop am p check s = some (r, s', rest)) :
    (r = 0 ∨ r = 1) ∧ s'.req_id = s.req_id ∧ s'.trace = s.trace := by
  obtain ⟨pre, it, _, _, _, h4⟩ := handler_loop_for_some am check _ _ _ s r s' rest h
  obtain ⟨h5, h6⟩ := receive_all_effect am (pre ++ [it]) s
  simp only [receive_all_append, receive_all] at h5 h6
  rcases h4 with ⟨hr, _, hs⟩ | ⟨hr, _, _, hs⟩
  · refine ⟨Or.inl hr, ?_, ?_⟩
    · rw [hs, (flag_clear_effect _ _).1, h5]
    · rw [hs, (flag_clear_effect _ _).2.1, h6]
  · refine ⟨Or.inr hr, ?_, ?_⟩
    · rw [hs, h5]
    · rw [hs, h6]

/-! ## The discovery loop -/

theorem discovery_timeouts_append (a b : List Event) :
    discovery_timeouts (a ++ b) = discovery_timeouts a + discovery_timeouts b := by
  simp [discovery_timeouts, discovery_polls]

theorem discovery_polls_append (a b : List Event) :
    discovery_polls (a ++ b) = discovery_polls a ++ discovery_polls b := by
  simp [discovery_polls]

theorem who_is_count_append (a b : List Event) :
    who_is_count (a ++ b) = who_is_count a + who_is_count b := by
  simp [who_is_count]

theorem address_bind_request_trace (r : Round Addr) (s : State Addr) :
    (address_bind_request r s).trace =
      s.trace ++ [.address_bind_request s.device_info.device_id r.found] := by
  unfold address_bind_request
  cases r.out <;> rfl

theorem address_bind_request_i_am_handled (r : Round Addr) (s : State Addr) :
    (address_bind_request r s).i_am_handled = s.i_am_handled := by
  unfold address_bind_request
  cases r.out <;> rfl

/-- Counts over the events of one pass of the discovery loop. -/
theorem round_counts (d : Nat) (ret : Int) (hret : ret = 0 ∨ ret = 1) (tail : List Event) :
    (discovery_timeouts
        ([.address_bind_request d false, .Send_WhoIs, .handler_loop .i_am_handled ret] ++ tail) :
          Int) = ret + discovery_timeouts tail ∧
    who_is_count
        ([.address_bind_request d false, .Send_WhoIs, .handler_loop .i_am_handled ret] ++ tail) =
      1 + who_is_count tail ∧
    discovery_polls
        ([.address_bind_request d false, .Send_WhoIs, .handler_loop .i_am_handled ret] ++ tail) =
      ret :: discovery_polls tail := by
  have e1 : (discovery_timeouts
      [.address_bind_request d false, .Send_WhoIs, .handler_loop .i_am_handled ret] : Int) =
      ret := by
    rcases hret with rfl | rfl <;> simp [discovery_timeouts, discovery_polls]
  have e2 : who_is_count
      [.address_bind_request d false, .Send_WhoIs, .handler_loop .i_am_handled ret] = 1 := by
    simp [who_is_count]
  refine ⟨?_, ?_, ?_⟩
  · rw [discovery_timeouts_append]
    push_cast
    rw [e1]
  · rw [who_is_count_append, e2]
  · simp [discovery_polls]

/-- Membership in the events of one pass of the discovery loop. -/
theorem mem_round (d : Nat) (ret : Int) (tail : List Event) (e : Event)
    (he : e ∈ [.address_bind_request d false, .Send_WhoIs, .handler_loop .i_am_handled ret] ++
      tail) :
    e = .address_bind_request d false ∨ e = .Send_WhoIs ∨
      e = .handler_loop .i_am_handled ret ∨ e ∈ tail := by
  simp only [List.mem_append, List.mem_cons, List.mem_singleton, List.not_mem_nil,
    or_false] at he
  tauto

/-- What the discovery loop records: only discovery events, one Who-Is per
poll; it fails exactly when the polls that timed out, added to `err_cnt`, reach
5, and it ends with `break` right after a positive answer of
`address_bind_request`. -/
theorem locate_effect (am : Addr → Addr → Bool) (rounds : List (Round Addr)) :
    ∀ (err : Int) (s : State Addr) (res : Located Addr), 0 ≤ err → err ≤ 4 →
      locate am err rounds s = some res →
      ∃ ex, res.state.trace = s.trace ++ ex ∧
        (∀ e ∈ ex, e.of_discovery = true) ∧
        who_is_count ex = (discovery_polls ex).length ∧
        (res.is_failed = true →
          (discovery_timeouts ex : Int) + err = 5 ∧
          (∃ ex1, ex = ex1 ++ [.printf .failed_to_locate]) ∧
          (∀ d, Event.address_bind_request d true ∉ ex)) ∧
        (res.is_failed = false →
          (discovery_timeouts ex : Int) + err ≤ 4 ∧
          Event.printf .failed_to_locate ∉ ex ∧
          ∃ ex1, ex = ex1 ++ [.address_bind_request res.state.device_info.device_id true]) := by
  induction rounds with
  | nil => intro err s res _ _ h; simp [locate] at h
  | cons r rs ih =>
    intro err s res h0 h4 h
    simp only [locate] at h
    cases hf : r.found with
    | true =>
      simp only [hf, Bool.not_true, Bool.false_eq_true, if_false, Option.some.injEq] at h
      subst h
      have hd : (address_bind_request r s).device_info.device_id = s.device_info.device_id := by
        unfold address_bind_request
        cases r.out <;> rfl
      refine ⟨[.address_bind_request s.device_info.device_id true], ?_, ?_, ?_, ?_, ?_⟩
      · simp [Located.state, address_bind_request_trace, hf]
      · simp [Event.of_discovery]
      · simp [who_is_count, discovery_polls]
      · simp [Located.is_failed]
      · intro _
        refine ⟨?_, by simp, [], by simp [Located.state, hd]⟩
        have : discovery_timeouts [Event.address_bind_request s.device_info.device_id true] = 0 := by
          simp [discovery_timeouts, discovery_polls]
        rw [this]
        simpa using h4
    | false =>
      simp only [hf, Bool.not_false, if_true] at h
      cases hp : handler_loop am r.poll .i_am_handled ((address_bind_request r s).log .Send_WhoIs) with
      | none => simp [hp] at h
      | some out =>
        obtain ⟨ret, s3, rest⟩ := out
        simp only [hp] at h
        obtain ⟨hret, _, hH⟩ := handler_loop_effect am _ _ _ _ _ _ hp
        have htr : s3.trace =
            s.trace ++ [.address_bind_request s.device_info.device_id false, .Send_WhoIs] := by
          rw [hH]
          simp [State.log, address_bind_request_trace, hf]
        by_cases hgt : err + ret > 4
        · simp only [hgt, if_true, Option.some.injEq] at h
          subst h
          have hr1 : ret = 1 := by omega
          subst hr1
          obtain ⟨c1, c2, c3⟩ := round_counts s.device_info.device_id 1 (Or.inr rfl)
            [.printf .failed_to_locate]
          have t0 : discovery_timeouts [Event.printf .failed_to_locate] = 0 := by
            simp [discovery_timeouts, discovery_polls]
          have w0 : who_is_count [Event.printf .failed_to_locate] = 0 := by
            simp [who_is_count]
          have p0 : discovery_polls [Event.printf .failed_to_locate] = [] := by
            simp [discovery_polls]
          refine ⟨[.address_bind_request s.device_info.device_id false, .Send_WhoIs,
            .handler_loop .i_am_handled 1] ++ [.printf .failed_to_locate], ?_, ?_, ?_, ?_, ?_⟩
          · simp [Located.state, State.log, htr]
          · intro e he
            rcases mem_round _ _ _ _ he with rfl | rfl | rfl | he
            · rfl
            · rfl
            · rfl
            · rw [List.mem_singleton.mp he]; rfl
          · rw [c2, c3, w0, p0]; rfl
          · intro _
            refine ⟨?_, ⟨_, rfl⟩, ?_⟩
            · rw [c1, t0]; omega
            · intro d hd
              rcases mem_round _ _ _ _ hd with hd | hd | hd | hd
              · simp at hd
              · simp at hd
              · simp at hd
              · simp at hd
          · simp [Located.is_failed]
        · simp only [hgt, if_false] at h
          have h0' : 0 ≤ err + ret := by omega
          have h4' : err + ret ≤ 4 := by omega
          obtain ⟨ex, hex, hdisc, hwho, hfail, hbound⟩ := ih (err + ret) _ res h0' h4' h
          obtain ⟨c1, c2, c3⟩ := round_counts s.device_info.device_id ret hret ex
          refine ⟨[.address_bind_request s.device_info.device_id false, .Send_WhoIs,
            .handler_loop .i_am_handled ret] ++ ex, ?_, ?_, ?_, ?_, ?_⟩
          · rw [hex]
            simp [State.log, htr]
          · intro e he
            rcases mem_round _ _ _ _ he with rfl | rfl | rfl | he
            · rfl
            · rfl
            · rfl
            · exact hdisc e he
          · rw [c2, c3, hwho, List.length_cons]; omega
          · intro hres
            obtain ⟨h1, ⟨ex1, h2⟩, h3⟩ := hfail hres
            refine ⟨by rw [c1]; omega,
              ⟨[.address_bind_request s.device_info.device_id false, .Send_WhoIs,
                .handler_loop .i_am_handled ret] ++ ex1, by rw [h2]; simp⟩, ?_⟩
            intro d hd
            rcases mem_round _ _ _ _ hd with hd | hd | hd | hd
            · simp at hd
            · simp at hd
            · simp at hd
            · exact h3 d hd
          · intro hres
            obtain ⟨h1, h2, ex1, h3⟩ := hbound hres
            refine ⟨by rw [c1]; omega, ?_,
              ⟨[.address_bind_request s.device_info.device_id false, .Send_WhoIs,
                .handler_loop .i_am_handled ret] ++ ex1, by rw [h3]; simp⟩⟩
            intro hd
            rcases mem_round _ _ _ _ hd with hd | hd | hd | hd
            · simp at hd
            · simp at hd
            · simp at hd
            · exact h2 hd

/-- A frame other than an I-Am that decodes leaves `i_am_handled` and the
identity of the device as they are. -/
theorem receive_without_i_am (am : Addr → Addr → Bool) (it : Iter Addr) (s : State Addr)
    (h : no_i_am [it] = true) :
    (receive am it s).i_am_handled = s.i_am_handled ∧
      (receive am it s).device_info =
        { s.device_info with last_val := (receive am it s).device_info.last_val } := by
  unfold receive
  simp only [no_i_am, List.all_cons, List.all_nil, Bool.and_true] at h
  cases hp : it.pdu with
  | none => exact ⟨rfl, rfl⟩
  | some f =>
    rw [hp] at h
    cases f with
    | i_am len d m src =>
      have hl : len = -1 := by simpa [Frame.decoded_i_am] using h
      subst hl
      exact ⟨by simp [npdu_handler, MyIAmHandler], by simp [npdu_handler, MyIAmHandler]⟩
    | write_ack src id =>
      simp only [npdu_handler, MyWritePropertyAckHandler]
      split <;> exact ⟨rfl, rfl⟩
    | read_ack src id v =>
      simp only [npdu_handler, MyReadPropertyAckHandler]
      split <;> exact ⟨rfl, rfl⟩
    | other => exact ⟨rfl, rfl⟩

theorem no_i_am_cons (x : Iter Addr) (xs : List (Iter Addr)) :
    no_i_am (x :: xs) = (no_i_am [x] && no_i_am xs) := by
  simp [no_i_am]

/-- A poll for `i_am_handled` in which no I-Am decodes and the clock runs out
returns 1 when the flag is zero on entry, and leaves it zero. -/
theorem handler_loop_silent (am : Addr → Addr → Bool) (p : Poll Addr) (s : State Addr)
    (hz : s.i_am_handled = 0) (hq : no_i_am p.iters = true) (hc : clock_runs_out p = true) :
    ∃ s' rest, handler_loop am p .i_am_handled s = some (1, s', rest) ∧ s'.i_am_handled = 0 := by
  unfold handler_loop
  unfold clock_runs_out at hc
  generalize p.iters = iters at hq hc
  induction iters generalizing s with
  | nil => simp at hc
  | cons x xs ih =>
    rw [no_i_am_cons, Bool.and_eq_true] at hq
    obtain ⟨h1, _⟩ := receive_without_i_am am x s hq.1
    have hz1 : (receive am x s).i_am_handled = 0 := by rw [h1, hz]
    simp only [handler_loop_for, Flag.get, hz1, ne_eq, not_true_eq_false, if_false]
    by_cases ht : x.current_seconds - p.last_seconds > ((p.apdu_timeout / 1000 : Nat) : Int)
    · exact ⟨receive am x s, xs, by simp only [ht, if_true], hz1⟩
    · simp only [ht, if_false]
      refine ih _ hz1 hq.2 ?_
      simp only [List.any_cons, Bool.or_eq_true, decide_eq_true_eq] at hc
      rcases hc with hc | hc
      · exact absurd hc ht
      · exact hc

/-! ## The write/read loop -/

/-- Five silent passes from `err_cnt = 0` (or the last `n` of them) make the
discovery loop fail, every poll returning 1. -/
theorem locate_silent (am : Addr → Addr → Bool) :
    ∀ (n : Nat) (err : Int) (rounds : List (Round Addr)) (s : State Addr),
      0 < n → err + n = 5 → n ≤ rounds.length →
      (∀ r ∈ rounds.take n, r.silent = true) → s.i_am_handled = 0 →
      ∃ s', locate am err rounds s = some (.failed s') ∧
        ∃ ex, s'.trace = s.trace ++ ex ∧ discovery_polls ex = List.replicate n 1 := by
  intro n
  induction n with
  | zero => intro err rounds s h; exact absurd h (lt_irrefl 0)
  | succ k ih =>
    intro err rounds s _ herr hlen hsil hz
    cases rounds with
    | nil => simp at hlen
    | cons r rs =>
      have hr : r.silent = true := hsil r (by simp)
      simp only [Round.silent, Bool.and_eq_true, Bool.not_eq_true'] at hr
      obtain ⟨⟨hf, hq⟩, hc⟩ := hr
      have hz2 : ((address_bind_request r s).log .Send_WhoIs).i_am_handled = 0 := by
        simp [State.log, address_bind_request_i_am_handled, hz]
      obtain ⟨s3, rest, hp, hz3⟩ := handler_loop_silent am r.poll _ hz2 hq hc
      obtain ⟨_, _, htr⟩ := handler_loop_effect am _ _ _ _ _ _ hp
      simp only [locate, hf, Bool.not_false, if_true, hp]
      by_cases hk : k = 0
      · subst hk
        have hgt : err + 1 > 4 := by omega
        simp only [hgt, if_true]
        refine ⟨_, rfl, [.address_bind_request s.device_info.device_id false, .Send_WhoIs,
          .handler_loop .i_am_handled 1, .printf .failed_to_locate], ?_, ?_⟩
        · simp [State.log, htr, address_bind_request_trace, hf]
        · simp [discovery_polls]
      · have hgt : ¬ (err + 1 > 4) := by omega
        simp only [hgt, if_false]
        have hlen' : k ≤ rs.length := by simpa using hlen
        have hsil' : ∀ r' ∈ rs.take k, r'.silent = true := by
          intro r' hr'
          exact hsil r' (by simp [List.take_succ_cons, hr'])
        obtain ⟨s', hloc, ex, hex, hpolls⟩ := ih (err + 1) rs
          (s3.log (.handler_loop .i_am_handled 1)) (Nat.pos_of_ne_zero hk)
          (by push_cast at herr; omega) hlen' hsil' (by simpa [State.log] using hz3)
        refine ⟨s', hloc, [.address_bind_request s.device_info.device_id false, .Send_WhoIs,
          .handler_loop .i_am_handled 1] ++ ex, ?_, ?_⟩
        · rw [hex]
          simp [State.log, htr, address_bind_request_trace, hf]
        · rw [discovery_polls_append, hpolls]
          simp [discovery_polls, List.replicate_succ]

/-- What `give_up` does after a poll that returned 0 or 1. -/
theorem give_up_effect (ret : Int) (hret : ret = 0 ∨ ret = 1) (id_free : Bool) (m : Msg)
    (s : State Addr) :
    give_up ret id_free m s =
      if ret = 1 ∧ id_free = false then
        .exit 1 { s with trace := s.trace ++
          [.tsm_invoke_id_free s.req_id false, .tsm_free_invoke_id s.req_id, .printf m] }
      else .next { s with trace := s.trace ++ after_poll ret s.req_id } := by
  rcases hret with rfl | rfl <;> cases id_free <;> simp [give_up, State.log, after_poll]

/-- Shape of the second half of a pass of the write/read loop. -/
theorem read_back_shape (am : Addr → Addr → Bool) (er : Exchange Addr) (i : Nat)
    (s : State Addr) (res : Step Addr) (h : read_back am er i s = some res) :
    ∃ timed_out ok, res.state.trace = s.trace ++
        (exchange_events
            (.Send_Read_Property_Request s.device_info.device_id .OBJECT_BINARY_INPUT 1
              er.invoke_id)
            .read_handled timed_out er.invoke_id er.id_free .failed_to_read ++
          if timed_out && !er.id_free then []
          else if ok then []
          else [.printf (.input_was_not i)]) ∧
      (((timed_out && !er.id_free) || !ok) = true → res = .exit 1 res.state) ∧
      (((timed_out && !er.id_free) || !ok) = false →
        res = .next res.state ∧ res.state.device_info.last_val = i) := by
  simp only [read_back] at h
  cases hp : handler_loop am er.poll .read_handled (send_read er.invoke_id s) with
  | none => simp [hp] at h
  | some out =>
    obtain ⟨ret, s2, rest⟩ := out
    simp only [hp] at h
    obtain ⟨hret, hq, htr⟩ := handler_loop_effect am _ _ _ _ _ _ hp
    rw [give_up_effect ret hret] at h
    have hq' : (s2.log (.handler_loop .read_handled ret)).req_id = er.invoke_id := by
      simp [State.log, hq, send_read]
    have htr' : (s2.log (.handler_loop .read_handled ret)).trace =
        s.trace ++ [.Send_Read_Property_Request s.device_info.device_id .OBJECT_BINARY_INPUT 1
          er.invoke_id, .handler_loop .read_handled ret] := by
      simp [State.log, htr, send_read]
    rcases hret with rfl | rfl
    · simp only [zero_ne_one, false_and, if_false] at h
      by_cases hv : s2.device_info.last_val = i
      · simp only [State.log, hv, ne_eq, not_true_eq_false, if_false, Option.some.injEq] at h
        subst h
        refine ⟨false, true, ?_, by simp, ?_⟩
        · simp [Step.state, exchange_events, after_poll, State.log, htr, send_read]
        · intro _
          exact ⟨rfl, hv⟩
      · simp only [State.log, hv, ne_eq, not_false_eq_true, if_true, Option.some.injEq] at h
        subst h
        refine ⟨false, false, ?_, ?_, by simp⟩
        · simp [Step.state, exchange_events, after_poll, State.log, htr, send_read]
        · intro _; rfl
    · cases hfree : er.id_free with
      | false =>
        simp only [hfree, and_self, if_true, Option.some.injEq] at h
        subst h
        refine ⟨true, true, ?_, ?_, by simp⟩
        · simp [Step.state, exchange_events, State.log, htr, send_read, hq]
        · intro _; rfl
      | true =>
        simp only [hfree, Bool.true_eq_false, and_false, if_false] at h
        by_cases hv : s2.device_info.last_val = i
        · simp only [State.log, hv, ne_eq, not_true_eq_false, if_false, Option.some.injEq] at h
          subst h
          refine ⟨true, true, ?_, by simp, ?_⟩
          · simp [Step.state, exchange_events, after_poll, State.log, htr, send_read, hq]
          · intro _
            exact ⟨rfl, hv⟩
        · simp only [State.log, hv, ne_eq, not_false_eq_true, if_true, Option.some.injEq] at h
          subst h
          refine ⟨true, false, ?_, ?_, by simp⟩
          · simp [Step.state, exchange_events, after_poll, State.log, htr, send_read, hq]
          · intro _; rfl

/-- Shape of one pass of the write/read loop. -/
theorem rw_iteration_shape (am : Addr → Addr → Bool) (ew er : Exchange Addr) (i : Nat)
    (s : State Addr) (res : Step Addr) (h : rw_iteration am ew er i s = some res) :
    ∃ o : Seen, o.write_device = s.device_info.device_id ∧
      res.state.trace = s.trace ++ o.events ew er i ∧
      (o.exits ew er = true → res = .exit 1 res.state) ∧
      (o.exits ew er = false → res = .next res.state ∧ res.state.device_info.last_val = i) := by
  simp only [rw_iteration] at h
  cases hp : handler_loop am ew.poll .write_handled (send_write i ew.invoke_id s) with
  | none => simp [hp] at h
  | some out =>
    obtain ⟨ret, s2, rest⟩ := out
    simp only [hp] at h
    obtain ⟨hret, hq, htr⟩ := handler_loop_effect am _ _ _ _ _ _ hp
    rw [give_up_effect ret hret] at h
    by_cases hx : ret = 1 ∧ ew.id_free = false
    · simp only [hx, and_self, if_true, Option.some.injEq] at h
      subst h
      refine ⟨⟨s.device_info.device_id, true, 0, false, true⟩, rfl, ?_, ?_, ?_⟩
      · simp [Step.state, Seen.events, exchange_events, State.log, htr, send_write, hq, hx.2]
      · intro _; rfl
      · simp [Seen.exits, hx.2]
    · simp only [hx, if_false] at h
      obtain ⟨timed_out, ok, h1, h2, h3⟩ := read_back_shape am er i _ res h
      have hgo : (decide (ret = 1) && !ew.id_free) = false := by
        cases hf : ew.id_free <;> simp_all
      refine ⟨⟨s.device_info.device_id, decide (ret = 1), s2.device_info.device_id, timed_out,
        ok⟩, rfl, ?_, ?_, ?_⟩
      · rw [h1]
        simp only [Seen.events, hgo, State.log, htr, hq, send_write]
        rcases hret with rfl | rfl
        · simp [exchange_events, after_poll]
        · have hf : ew.id_free = true := by
            cases hf : ew.id_free <;> simp_all
          simp [exchange_events, after_poll, hf]
      · intro ho
        apply h2
        simpa [Seen.exits, hgo] using ho
      · intro ho
        apply h3
        simpa [Seen.exits, hgo] using ho

/-- Shape of the trace of `rw_loop` run for the two passes. -/
theorem rw_loop_shape (am : Addr → Addr → Bool) (w : World Addr) (s : State Addr)
    (r : Int) (s' : State Addr) (h : rw_loop am w 2 0 s = some (r, s')) :
    ∃ o0 : Seen, o0.write_device = s.device_info.device_id ∧
      ((o0.exits (w.write 0) (w.read 0) = true ∧ r = 1 ∧
          s'.trace = s.trace ++ o0.events (w.write 0) (w.read 0) 0) ∨
        (o0.exits (w.write 0) (w.read 0) = false ∧
          ∃ o1 : Seen,
            s'.trace = s.trace ++ o0.events (w.write 0) (w.read 0) 0 ++
              o1.events (w.write 1) (w.read 1) 1 ∧
            ((o1.exits (w.write 1) (w.read 1) = true ∧ r = 1) ∨
              (o1.exits (w.write 1) (w.read 1) = false ∧ r = 0 ∧
                s'.device_info.last_val = 1)))) := by
  simp only [rw_loop] at h
  cases h0 : rw_iteration am (w.write 0) (w.read 0) 0 s with
  | none => simp [h0] at h
  | some res0 =>
    obtain ⟨o0, hd0, ht0, hx0, hn0⟩ := rw_iteration_shape am _ _ _ _ _ h0
    refine ⟨o0, hd0, ?_⟩
    cases hb0 : o0.exits (w.write 0) (w.read 0) with
    | true =>
      rw [h0, hx0 hb0] at h
      simp only [Option.some.injEq, Prod.mk.injEq] at h
      exact Or.inl ⟨rfl, h.1.symm, by rw [← h.2]; exact ht0⟩
    | false =>
      rw [h0, (hn0 hb0).1] at h
      simp only [zero_add] at h
      cases h1 : rw_iteration am (w.write 1) (w.read 1) 1 res0.state with
      | none => simp [h1] at h
      | some res1 =>
        obtain ⟨o1, _, ht1, hx1, hn1⟩ := rw_iteration_shape am _ _ _ _ _ h1
        refine Or.inr ⟨rfl, o1, ?_⟩
        cases hb1 : o1.exits (w.write 1) (w.read 1) with
        | true =>
          rw [h1, hx1 hb1] at h
          simp only [Option.some.injEq, Prod.mk.injEq] at h
          exact ⟨by rw [← h.2, ht1, ht0], Or.inl ⟨rfl, h.1.symm⟩⟩
        | false =>
          rw [h1, (hn1 hb1).1] at h
          simp only [Option.some.injEq, Prod.mk.injEq] at h
          exact ⟨by rw [← h.2, ht1, ht0], Or.inr ⟨rfl, h.1.symm, by rw [← h.2]; exact (hn1 hb1).2⟩⟩

/-- Shape of the trace of a run of `main`: the events of the discovery loop,
then, when a device is bound, the two announcements and the events of the
passes of the write/read loop. -/
theorem main_shape (am : Addr → Addr → Bool) (a0 : Addr) (w : World Addr) (r : Int)
    (s' : State Addr) (h : main am a0 w = some (r, s')) :
    ∃ ex, (∀ e ∈ ex, e.of_discovery = true) ∧
      who_is_count ex = (discovery_polls ex).length ∧
      ((r = 1 ∧ s'.trace = ex ∧ discovery_timeouts ex = 5 ∧
          (∃ ex1, ex = ex1 ++ [.printf .failed_to_locate]) ∧
          (∀ d, Event.address_bind_request d true ∉ ex)) ∨
        (discovery_timeouts ex ≤ 4 ∧ Event.printf .failed_to_locate ∉ ex ∧
          ∃ (ex1 : List Event) (d : Nat) (o0 : Seen),
            ex = ex1 ++ [.address_bind_request d true] ∧ o0.write_device = d ∧
            ((o0.exits (w.write 0) (w.read 0) = true ∧ r = 1 ∧
                s'.trace = ex ++ [.printf (.located d), .printf .setting_and_clearing] ++
                  o0.events (w.write 0) (w.read 0) 0) ∨
              (o0.exits (w.write 0) (w.read 0) = false ∧
                ∃ o1 : Seen,
                  s'.trace = ex ++ [.printf (.located d), .printf .setting_and_clearing] ++
                    o0.events (w.write 0) (w.read 0) 0 ++ o1.events (w.write 1) (w.read 1) 1 ∧
                  ((o1.exits (w.write 1) (w.read 1) = true ∧ r = 1) ∨
                    (o1.exits (w.write 1) (w.read 1) = false ∧ r = 0 ∧
                      s'.device_info.last_val = 1)))))) := by
  simp only [main] at h
  cases hl : locate am 0 w.discovery (init a0) with
  | none => simp [hl] at h
  | some res =>
    obtain ⟨ex, hex, hdisc, hwho, hfail, hbound⟩ :=
      locate_effect am w.discovery 0 (init a0) res (le_refl 0) (by decide) hl
    have hex' : res.state.trace = ex := by simpa [init] using hex
    refine ⟨ex, hdisc, hwho, ?_⟩
    cases res with
    | failed s =>
      simp only [hl, Option.some.injEq, Prod.mk.injEq] at h
      obtain ⟨h1, h2, h3⟩ := hfail rfl
      refine Or.inl ⟨h.1.symm, by rw [← h.2]; exact hex', ?_, h2, h3⟩
      have : (discovery_timeouts ex : Int) = 5 := by simpa using h1
      exact_mod_cast this
    | bound s =>
      simp only [hl] at h
      obtain ⟨h1, h2, ex1, h3⟩ := hbound rfl
      have hex2 : s.trace = ex := hex'
      obtain ⟨o0, hd0, hsh⟩ := rw_loop_shape am w (announce s) r s' h
      refine Or.inr ⟨by omega, h2, ex1, s.device_info.device_id, o0, h3, hd0, ?_⟩
      have han : (announce s).trace =
          ex ++ [.printf (.located s.device_info.device_id), .printf .setting_and_clearing] := by
        simp [announce, State.log, hex2]
      rw [han] at hsh
      exact hsh

/-! ## Where an event can stand in a trace -/

/-- An occurrence of `e` in `x :: xs` is the head or lies in `xs`. -/
theorem cons_split {α : Type} (x e : α) (xs pre post : List α) :
    x :: xs = pre ++ e :: post ↔
      (pre = [] ∧ x = e ∧ xs = post) ∨ ∃ pre', pre = x :: pre' ∧ xs = pre' ++ e :: post := by
  rw [List.cons_eq_append_iff]
  simp [eq_comm]

/-- An occurrence of `e` in `A ++ B` lies in `A` or in `B`. -/
theorem append_split {α : Type} (e : α) (A B pre post : List α)
    (h : A ++ B = pre ++ e :: post) :
    (∃ post', A = pre ++ e :: post' ∧ post = post' ++ B) ∨
      ∃ pre', pre = A ++ pre' ∧ B = pre' ++ e :: post := by
  rw [List.append_eq_append_iff] at h
  rcases h with ⟨a', h1, h2⟩ | ⟨c', h1, h2⟩
  · exact Or.inr ⟨a', h1, h2⟩
  · cases c' with
    | nil => exact Or.inr ⟨[], by simpa using h1.symm, by simpa using h2.symm⟩
    | cons c cs =>
      simp only [List.cons_append, List.cons.injEq] at h2
      exact Or.inl ⟨cs, by rw [h1, h2.1], h2.2⟩

/-- An occurrence of `e` in `A ++ B` lies in `B` when `e` is not in `A`. -/
theorem append_split_right {α : Type} (e : α) (A B pre post : List α) (hA : e ∉ A)
    (h : A ++ B = pre ++ e :: post) :
    ∃ pre', pre = A ++ pre' ∧ B = pre' ++ e :: post := by
  rcases append_split e A B pre post h with ⟨post', h1, _⟩ | h1
  · exact absurd (by rw [h1]; simp) hA
  · exact h1

/-- In the events of a pass, a read request comes right after the return of
the write poll, or after the answer `true` of `tsm_invoke_id_free`. -/
theorem read_request_in_pass (o : Seen) (ew er : Exchange Addr) (i : Nat)
    (pre post : List Event) (d : Nat) (ot : OBJECT_TYPE) (oi q : Nat)
    (h : o.events ew er i = pre ++ .Send_Read_Property_Request d ot oi q :: post) :
    pre = [.Send_Write_Property_Request o.write_device .OBJECT_BINARY_OUTPUT 1 i ew.invoke_id,
        .handler_loop .write_handled 0] ∨
      pre = [.Send_Write_Property_Request o.write_device .OBJECT_BINARY_OUTPUT 1 i ew.invoke_id,
        .handler_loop .write_handled 1, .tsm_invoke_id_free ew.invoke_id true] := by
  obtain ⟨d1, b1, d2, b2, ok⟩ := o
  cases b1 <;> cases b2 <;> cases ok <;> cases hw : ew.id_free <;> cases hr : er.id_free <;>
    simp [Seen.events, exchange_events, hw, hr, cons_split] at h <;>
    casesm* ∃ _, _, _ ∧ _ <;> subst_vars <;> simp

/-- In the events of a pass, a write poll that returned 1 is followed either
by the negative answer of `tsm_invoke_id_free`, the release of the invoke id
and "Failed to toggle relay!", which end the pass and the run, or by the
positive answer and the read request. -/
theorem write_timeout_in_pass (o : Seen) (ew er : Exchange Addr) (i : Nat)
    (pre post : List Event)
    (h : o.events ew er i = pre ++ .handler_loop .write_handled 1 :: post) :
    (post = [.tsm_invoke_id_free ew.invoke_id false, .tsm_free_invoke_id ew.invoke_id,
        .printf .failed_to_toggle] ∧ o.exits ew er = true) ∨
      ∃ d post', post = .tsm_invoke_id_free ew.invoke_id true ::
        .Send_Read_Property_Request d .OBJECT_BINARY_INPUT 1 er.invoke_id :: post' := by
  obtain ⟨d1, b1, d2, b2, ok⟩ := o
  cases b1 <;> cases b2 <;> cases ok <;> cases hw : ew.id_free <;> cases hr : er.id_free <;>
    simp [Seen.events, exchange_events, hw, hr, cons_split] at h <;>
    casesm* ∃ _, _, _ ∧ _ <;> subst_vars <;> simp [Seen.exits, hw, hr]

/-- Requests sent in a pass: the write, and the read unless the pass ends at
the write. -/
theorem requests_in_pass (o : Seen) (ew er : Exchange Addr) (i : Nat) :
    (o.events ew er i).filterMap Event.request =
      if o.write_timed_out && !ew.id_free then [(.OBJECT_BINARY_OUTPUT, 1, some i)]
      else [(.OBJECT_BINARY_OUTPUT, 1, some i), (.OBJECT_BINARY_INPUT, 1, none)] := by
  obtain ⟨d1, b1, d2, b2, ok⟩ := o
  cases b1 <;> cases b2 <;> cases ok <;> cases hw : ew.id_free <;> cases hr : er.id_free <;>
    simp [Seen.events, exchange_events, hw, hr, Event.request]

/-! ## C1 and C2: the poll loop -/

/-- C1: `handler_loop` returns 0 at the first pass after whose receive and
dispatch step the flag is not zero, whatever the clock reads in that pass, and
leaves the flag at 0; when the flag is not zero on entry this is the first
pass; and a return of 0 always comes from a pass in which the flag was found
not zero. -/
theorem handler_loop_returns_zero (am : Addr → Addr → Bool) (check : Flag)
    (apdu_timeout : Nat) (t0 : Int) (s : State Addr) :
    (∀ (pre : List (Iter Addr)) (it : Iter Addr) (rest : List (Iter Addr)),
        flag_stays_zero am check pre s = true →
        (∀ x ∈ pre, x.current_seconds - t0 ≤ ((apdu_timeout / 1000 : Nat) : Int)) →
        check.get (receive am it (receive_all am pre s)) ≠ 0 →
        handler_loop am ⟨apdu_timeout, t0, pre ++ it :: rest⟩ check s =
            some (0, check.clear (receive am it (receive_all am pre s)), rest) ∧
          check.get (check.clear (receive am it (receive_all am pre s))) = 0) ∧
    (∀ (it : Iter Addr) (rest : List (Iter Addr)),
        check.get s ≠ 0 →
        handler_loop am ⟨apdu_timeout, t0, it :: rest⟩ check s =
          some (0, check.clear (receive am it s), rest)) ∧
    (∀ (iters : List (Iter Addr)) (s' : State Addr) (rest : List (Iter Addr)),
        handler_loop am ⟨apdu_timeout, t0, iters⟩ check s = some (0, s', rest) →
        ∃ pre it, iters = pre ++ it :: rest ∧
          flag_stays_zero am check pre s = true ∧
          check.get (receive am it (receive_all am pre s)) ≠ 0 ∧
          s' = check.clear (receive am it (receive_all am pre s))) := by
  refine ⟨?_, ?_, ?_⟩
  · intro pre it rest hzero hclock hset
    refine ⟨?_, flag_get_clear _ _⟩
    unfold handler_loop
    simp only []
    rw [handler_loop_for_append am check _ t0 pre (it :: rest) s hzero hclock]
    simp [handler_loop_for, hset]
  · intro it rest hset
    have h := receive_keeps_flag am check it s hset
    simp [handler_loop, handler_loop_for, h]
  · intro iters s' rest h
    obtain ⟨pre, it, h1, h2, _, h4⟩ := handler_loop_for_some am check _ t0 iters s 0 s' rest h
    rcases h4 with ⟨_, h5, h6⟩ | ⟨h5, _⟩
    · exact ⟨pre, it, h1, h2, h5, h6⟩
    · exact absurd h5 (by decide)

/-- C1 at a concrete run: the acknowledgment arrives in a pass whose clock
reading is far beyond the 3 second timeout, and the loop still returns 0. -/
theorem handler_loop_returns_zero_witness :
    flag_stays_zero same_station .write_handled [⟨101, none⟩] awaiting_write = true ∧
    (∀ x ∈ [(⟨101, none⟩ : Iter Nat)], x.current_seconds - 100 ≤ ((3000 / 1000 : Nat) : Int)) ∧
    Flag.write_handled.get (receive same_station ⟨500, some (.write_ack 1 10)⟩
      (receive_all same_station [⟨101, none⟩] awaiting_write)) ≠ 0 ∧
    handler_loop same_station ⟨3000, 100, [⟨101, none⟩, ⟨500, some (.write_ack 1 10)⟩]⟩
      .write_handled awaiting_write = some (0, awaiting_write, []) :=
  ⟨by decide, by decide, by decide,
    ((handler_loop_returns_zero same_station .write_handled 3000 100 awaiting_write).1
      [⟨101, none⟩] ⟨500, some (.write_ack 1 10)⟩ [] (by decide) (by decide) (by decide)).1⟩

/-- C2: with `T = apdu_timeout() / 1000` and `t0` the clock reading on entry,
while the flag stays 0 `handler_loop` returns 1 at the first pass whose clock
reading `t` has `t - t0 > T`, with the flag still 0 and the state as the
handlers left it; it does not return while `t - t0 ≤ T`; and every return of 1
is of this kind. -/
theorem handler_loop_returns_one (am : Addr → Addr → Bool) (check : Flag)
    (apdu_timeout : Nat) (t0 : Int) (s : State Addr) :
    (∀ (pre : List (Iter Addr)) (it : Iter Addr) (rest : List (Iter Addr)),
        flag_stays_zero am check (pre ++ [it]) s = true →
        (∀ x ∈ pre, x.current_seconds - t0 ≤ ((apdu_timeout / 1000 : Nat) : Int)) →
        it.current_seconds - t0 > ((apdu_timeout / 1000 : Nat) : Int) →
        handler_loop am ⟨apdu_timeout, t0, pre ++ it :: rest⟩ check s =
            some (1, receive_all am (pre ++ [it]) s, rest) ∧
          check.get (receive_all am (pre ++ [it]) s) = 0) ∧
    (∀ (iters : List (Iter Addr)),
        flag_stays_zero am check iters s = true →
        (∀ x ∈ iters, x.current_seconds - t0 ≤ ((apdu_timeout / 1000 : Nat) : Int)) →
        handler_loop am ⟨apdu_timeout, t0, iters⟩ check s = none) ∧
    (∀ (iters : List (Iter Addr)) (s' : State Addr) (rest : List (Iter Addr)),
        handler_loop am ⟨apdu_timeout, t0, iters⟩ check s = some (1, s', rest) →
        ∃ pre it, iters = pre ++ it :: rest ∧
          flag_stays_zero am check (pre ++ [it]) s = true ∧
          (∀ x ∈ pre, x.current_seconds - t0 ≤ ((apdu_timeout / 1000 : Nat) : Int)) ∧
          it.current_seconds - t0 > ((apdu_timeout / 1000 : Nat) : Int) ∧
          s' = receive_all am (pre ++ [it]) s ∧ check.get s' = 0) := by
  refine ⟨?_, ?_, ?_⟩
  · intro pre it rest hzero hclock hlate
    rw [flag_stays_zero_append] at hzero
    simp only [Bool.and_eq_true, flag_stays_zero, decide_eq_true_eq, and_true] at hzero
    refine ⟨?_, ?_⟩
    · unfold handler_loop
      simp only []
      rw [handler_loop_for_append am check _ t0 pre (it :: rest) s hzero.1 hclock]
      simp only [handler_loop_for, hzero.2, ne_eq, not_true_eq_false, if_false, hlate, if_true,
        receive_all_append, receive_all]
    · simpa [receive_all_append, receive_all] using hzero.2
  · intro iters hzero hclock
    unfold handler_loop
    simp only []
    have h := handler_loop_for_append am check _ t0 iters [] s hzero hclock
    rw [List.append_nil] at h
    rw [h]
    rfl
  · intro iters s' rest h
    obtain ⟨pre, it, h1, h2, h3, h4⟩ := handler_loop_for_some am check _ t0 iters s 1 s' rest h
    rcases h4 with ⟨h5, _⟩ | ⟨_, h5, h6, h7⟩
    · exact absurd h5 (by decide)
    · refine ⟨pre, it, h1, ?_, h3, h6, ?_, ?_⟩
      · rw [flag_stays_zero_append]
        simp [flag_stays_zero, h2, h5]
      · simpa [receive_all_append, receive_all] using h7
      · rw [h7]; exact h5

/-- C2 at a concrete run: a 3500 ms request timeout gives `T = 3`; the clock
reads 100 on entry, then 101, 103 and 104, and the loop returns 1 at 104. -/
theorem handler_loop_returns_one_witness :
    flag_stays_zero same_station .write_handled
      ([⟨101, none⟩, ⟨103, some (.write_ack 2 10)⟩] ++ [⟨104, none⟩]) awaiting_write = true ∧
    (∀ x ∈ [(⟨101, none⟩ : Iter Nat), ⟨103, some (.write_ack 2 10)⟩],
      x.current_seconds - 100 ≤ ((3500 / 1000 : Nat) : Int)) ∧
    (104 : Int) - 100 > ((3500 / 1000 : Nat) : Int) ∧
    handler_loop same_station
      ⟨3500, 100, [⟨101, none⟩, ⟨103, some (.write_ack 2 10)⟩, ⟨104, none⟩, ⟨105, none⟩]⟩
      .write_handled awaiting_write = some (1, awaiting_write, [⟨105, none⟩]) :=
  ⟨by decide, by decide, by decide,
    ((handler_loop_returns_one same_station .write_handled 3500 100 awaiting_write).1
      [⟨101, none⟩, ⟨103, some (.write_ack 2 10)⟩] ⟨104, none⟩ [⟨105, none⟩]
      (by decide) (by decide) (by decide)).1⟩

/-! ## C3 and C8: the handlers -/

/-- C3: each acknowledgment handler accepts a response exactly when
`address_match(&device_info.address, src)` holds and the invoke id equals
`req_id`.  On acceptance the write handler only sets `write_handled` to 1, the
read handler only stores the decoded value in `device_info.last_val` and sets
`read_handled` to 1; otherwise the handler changes nothing.  So the flag is 1
afterwards exactly when the response was accepted or the flag was 1 before. -/
theorem ack_handlers_accept_iff (am : Addr → Addr → Bool) (src : Addr)
    (invoke_id enumerated : Nat) (s : State Addr) :
    ((am s.device_info.address src = true ∧ invoke_id = s.req_id) →
        MyWritePropertyAckHandler am src invoke_id s = { s with write_handled := 1 }) ∧
    (¬ (am s.device_info.address src = true ∧ invoke_id = s.req_id) →
        MyWritePropertyAckHandler am src invoke_id s = s) ∧
    ((MyWritePropertyAckHandler am src invoke_id s).write_handled = 1 ↔
        (am s.device_info.address src = true ∧ invoke_id = s.req_id) ∨ s.write_handled = 1) ∧
    ((am s.device_info.address src = true ∧ invoke_id = s.req_id) →
        MyReadPropertyAckHandler am src invoke_id enumerated s =
          { s with
            device_info := { s.device_info with last_val := enumerated }
            read_handled := 1 }) ∧
    (¬ (am s.device_info.address src = true ∧ invoke_id = s.req_id) →
        MyReadPropertyAckHandler am src invoke_id enumerated s = s) ∧
    ((MyReadPropertyAckHandler am src invoke_id enumerated s).read_handled = 1 ↔
        (am s.device_info.address src = true ∧ invoke_id = s.req_id) ∨ s.read_handled = 1) := by
  by_cases h : am s.device_info.address src = true ∧ invoke_id = s.req_id
  · have hc : (am s.device_info.address src && (invoke_id == s.req_id)) = true := by
      simp [h.1, h.2]
    simp [MyWritePropertyAckHandler, MyReadPropertyAckHandler, hc, h]
  · have hc : ¬ ((am s.device_info.address src && (invoke_id == s.req_id)) = true) := by
      simpa using h
    simp [MyWritePropertyAckHandler, MyReadPropertyAckHandler, hc, h]

/-- C3 at concrete responses: an acknowledgment from station 1 with invoke id
10 is accepted; one from station 2, and one with invoke id 11, change
nothing. -/
theorem ack_handlers_accept_iff_witness :
    MyWritePropertyAckHandler same_station 1 10 awaiting_write =
      { awaiting_write with write_handled := 1 } ∧
    MyWritePropertyAckHandler same_station 2 10 awaiting_write = awaiting_write ∧
    MyReadPropertyAckHandler same_station 1 11 5 awaiting_write = awaiting_write ∧
    MyReadPropertyAckHandler same_station 1 10 5 awaiting_write =
      { awaiting_write with
        device_info := { awaiting_write.device_info with last_val := 5 }
        read_handled := 1 } :=
  ⟨(ack_handlers_accept_iff same_station 1 10 0 awaiting_write).1 (by decide),
    (ack_handlers_accept_iff same_station 2 10 0 awaiting_write).2.1 (by decide),
    (ack_handlers_accept_iff same_station 1 11 5 awaiting_write).2.2.2.2.1 (by decide),
    (ack_handlers_accept_iff same_station 1 10 5 awaiting_write).2.2.2.1 (by decide)⟩

/-- C8: when `iam_decode_service_request` succeeds (`len ≠ -1`) with device id
`d` and maximum APDU `m` for a frame from `src`, `MyIAmHandler` leaves
`device_info = {flags = 1, device_id = d, max_apdu = m, address = src}` with
`last_val` as before, sets `i_am_handled` to 1, passes the binding
`(d, m, src)` to `address_add_binding`, and touches no other global; when the
decode fails it changes no global and adds no binding. -/
theorem MyIAmHandler_binds_replying_device (len : Int) (d m : Nat) (src : Addr)
    (s : State Addr) :
    (len ≠ -1 →
      MyIAmHandler len d m src s =
        { req_id := s.req_id
          device_info :=
            { flags := 1, device_id := d, last_val := s.device_info.last_val,
              max_apdu := m, address := src }
          write_handled := s.write_handled
          read_handled := s.read_handled
          i_am_handled := 1
          address_table := s.address_table ++ [(d, m, src)]
          stderr := s.stderr ++ [.received_from d src]
          trace := s.trace }) ∧
    (len = -1 →
      MyIAmHandler len d m src s = { s with stderr := s.stderr ++ [.unable_to_decode] } ∧
      (MyIAmHandler len d m src s).device_info = s.device_info ∧
      (MyIAmHandler len d m src s).i_am_handled = s.i_am_handled ∧
      (MyIAmHandler len d m src s).address_table = s.address_table) := by
  constructor
  · intro h
    simp [MyIAmHandler, h, BAC_ADDRESS_MULT]
  · intro h
    subst h
    simp [MyIAmHandler]

/-- C8 at concrete frames: an I-Am from station 4 decoded as device 9 with
maximum APDU 480, and one that fails to decode. -/
theorem MyIAmHandler_binds_replying_device_witness :
    MyIAmHandler 5 9 480 4 awaiting_write =
      { req_id := 10
        device_info := { flags := 1, device_id := 9, last_val := 0, max_apdu := 480, address := 4 }
        write_handled := 0
        read_handled := 0
        i_am_handled := 1
        address_table := [(7, 480, 1), (9, 480, 4)]
        stderr := [.received_from 7 1, .received_from 9 4]
        trace := [] } ∧
    MyIAmHandler (-1) 9 480 4 awaiting_write =
      { awaiting_write with stderr := [.received_from 7 1, .unable_to_decode] } :=
  ⟨(MyIAmHandler_binds_replying_device 5 9 480 4 awaiting_write).1 (by decide),
    ((MyIAmHandler_binds_replying_device (-1) 9 480 4 awaiting_write).2 rfl).1⟩

/-! ## C4: the device locator -/

theorem of_discovery_request (e : Event) (h : e.of_discovery = true) : e.request = none := by
  cases e <;> simp_all [Event.of_discovery, Event.request]

theorem filterMap_request_discovery (ex : List Event) (h : ∀ e ∈ ex, e.of_discovery = true) :
    ex.filterMap Event.request = [] := by
  rw [List.filterMap_eq_nil_iff]
  exact fun e he => of_discovery_request e (h e he)

/-- No event of a pass of the write/read loop is a discovery event. -/
theorem seen_events_not_discovery (o : Seen) (ew er : Exchange Addr) (i : Nat) :
    ∀ e ∈ o.events ew er i, e.of_discovery = false := by
  obtain ⟨d1, b1, d2, b2, ok⟩ := o
  intro e he
  cases b1 <;> cases b2 <;> cases ok <;> cases hw : ew.id_free <;> cases hr : er.id_free <;>
    simp [Seen.events, exchange_events, hw, hr] at he <;>
    casesm* _ ∨ _ <;> subst_vars <;> rfl

theorem discovery_timeouts_zero (L : List Event) (h : ∀ e ∈ L, e.of_discovery = false) :
    discovery_timeouts L = 0 := by
  have : discovery_polls L = [] := by
    unfold discovery_polls
    rw [List.filterMap_eq_nil_iff]
    intro e he
    have := h e he
    cases e with
    | handler_loop check ret => cases check <;> simp_all [Event.of_discovery]
    | _ => rfl
  simp [discovery_timeouts, this]

theorem announce_not_discovery (d : Nat) :
    ∀ e ∈ [Event.printf (.located d), .printf .setting_and_clearing],
      e.of_discovery = false := by
  intro e he
  simp at he
  rcases he with rfl | rfl <;> rfl

/-- C4, as the code has it: the discovery loop prints "Failed to locate a
device on the network!" and `main` returns 1 exactly when five polls in all
have timed out, consecutive or not, before `address_bind_request` answers
`true`; `main` then has sent no write or read request.  In particular, when no
device replies in the first five passes, `main` returns 1 after exactly five
Who-Is broadcasts.  And whenever a poll times out with `err_cnt` at 4, the loop
returns 1 there. -/
theorem discovery_fails_after_five_timeouts (am : Addr → Addr → Bool) (a0 : Addr)
    (w : World Addr) :
    (∀ (r : Int) (s' : State Addr), main am a0 w = some (r, s') →
      (Event.printf .failed_to_locate ∈ s'.trace ↔ discovery_timeouts s'.trace = 5) ∧
      discovery_timeouts s'.trace ≤ 5 ∧
      (Event.printf .failed_to_locate ∈ s'.trace →
        r = 1 ∧ (∃ t, s'.trace = t ++ [.printf .failed_to_locate]) ∧
        (∀ d, Event.address_bind_request d true ∉ s'.trace) ∧
        s'.trace.filterMap Event.request = [])) ∧
    (5 ≤ w.discovery.length → (∀ r ∈ w.discovery.take 5, r.silent = true) →
      ∃ s', main am a0 w = some (1, s') ∧
        (∃ t, s'.trace = t ++ [.printf .failed_to_locate]) ∧
        discovery_polls s'.trace = [1, 1, 1, 1, 1] ∧
        who_is_count s'.trace = 5 ∧
        s'.trace.filterMap Event.request = []) ∧
    (∀ (r : Round Addr) (rs : List (Round Addr)) (s s3 : State Addr) (rest : List (Iter Addr)),
      r.found = false →
      handler_loop am r.poll .i_am_handled ((address_bind_request r s).log .Send_WhoIs) =
        some (1, s3, rest) →
      locate am 4 (r :: rs) s =
        some (.failed ((s3.log (.handler_loop .i_am_handled 1)).log
          (.printf .failed_to_locate)))) := by
  refine ⟨?_, ?_, ?_⟩
  · intro r s' h
    obtain ⟨ex, hdisc, _, hcase⟩ := main_shape am a0 w r s' h
    rcases hcase with ⟨hr, htr, hcount, hlast, hbind⟩ | ⟨hcount, hnot, ex1, d, o0, _, _, hrest⟩
    · rw [htr]
      obtain ⟨ex1, hex1⟩ := hlast
      have hmem : Event.printf .failed_to_locate ∈ ex := by rw [hex1]; simp
      exact ⟨⟨fun _ => hcount, fun _ => hmem⟩, by omega,
        fun _ => ⟨hr, ⟨ex1, hex1⟩, hbind, filterMap_request_discovery ex hdisc⟩⟩
    · have key : ∀ L : List Event, (∀ e ∈ L, e.of_discovery = false) →
          discovery_timeouts (ex ++ L) ≤ 4 ∧ Event.printf .failed_to_locate ∉ ex ++ L := by
        intro L hL
        refine ⟨by rw [discovery_timeouts_append, discovery_timeouts_zero L hL]; omega, ?_⟩
        intro hm
        rcases List.mem_append.mp hm with hm | hm
        · exact hnot hm
        · have := hL _ hm
          simp [Event.of_discovery] at this
      have hall : ∃ L : List Event, (∀ e ∈ L, e.of_discovery = false) ∧ s'.trace = ex ++ L := by
        rcases hrest with ⟨_, _, htr⟩ | ⟨_, o1, htr, _⟩
        · refine ⟨[.printf (.located d), .printf .setting_and_clearing] ++
            o0.events (w.write 0) (w.read 0) 0, ?_, by rw [htr]; simp⟩
          intro e he
          rcases List.mem_append.mp he with he | he
          · exact announce_not_discovery d e he
          · exact seen_events_not_discovery _ _ _ _ e he
        · refine ⟨[.printf (.located d), .printf .setting_and_clearing] ++
            o0.events (w.write 0) (w.read 0) 0 ++ o1.events (w.write 1) (w.read 1) 1, ?_,
            by rw [htr]; simp⟩
          intro e he
          rcases List.mem_append.mp he with he | he
          · rcases List.mem_append.mp he with he | he
            · exact announce_not_discovery d e he
            · exact seen_events_not_discovery _ _ _ _ e he
          · exact seen_events_not_discovery _ _ _ _ e he
      obtain ⟨L, hL, htr⟩ := hall
      obtain ⟨k1, k2⟩ := key L hL
      rw [htr]
      exact ⟨⟨fun hm => absurd hm k2, fun hc => by omega⟩, by omega, fun hm => absurd hm k2⟩
  · intro hlen hsil
    obtain ⟨s', hloc, ex, hex, hpolls⟩ := locate_silent am 5 0 w.discovery (init a0)
      (by decide) (by norm_num) hlen hsil rfl
    have hmain : main am a0 w = some (1, s') := by simp [main, hloc]
    have htr : s'.trace = ex := by simpa [init] using hex
    obtain ⟨ex0, h0, hdisc, hwho, hf, _⟩ :=
      locate_effect am w.discovery 0 (init a0) (.failed s') (le_refl 0) (by decide) hloc
    obtain ⟨_, hlast, _⟩ := hf rfl
    have htr0 : s'.trace = ex0 := by simpa [init, Located.state] using h0
    rw [← htr0] at hdisc hwho hlast
    refine ⟨s', hmain, hlast, ?_, ?_, filterMap_request_discovery _ hdisc⟩
    · rw [htr, hpolls]; rfl
    · rw [hwho, htr, hpolls]; rfl
  · intro r rs s s3 rest hf hp
    simp [locate, hf, hp]

/-- C4 at concrete runs: with no reply at all `main` returns 1 after five
Who-Is broadcasts.  And whenever a poll times out with `err_cnt` at 4, the loop
returns 1 there. -/
theorem discovery_fails_after_five_timeouts_witness :
    main same_station 0 silent_world = some (1, silent_end) ∧
    Msg.failed_to_locate.text = "Failed to locate a device on the network!\n" ∧
    discovery_timeouts silent_end.trace = 5 ∧
    (5 ≤ silent_world.discovery.length ∧
      (∀ r ∈ silent_world.discovery.take 5, r.silent = true)) ∧
    ∃ s', main same_station 0 silent_world = some (1, s') ∧
      (∃ t, s'.trace = t ++ [.printf .failed_to_locate]) ∧
      discovery_polls s'.trace = [1, 1, 1, 1, 1] ∧
      who_is_count s'.trace = 5 ∧
      s'.trace.filterMap Event.request = [] :=
  ⟨by decide, by decide,
    ((discovery_fails_after_five_timeouts same_station 0 silent_world).1 1 silent_end
      (by decide)).1.mp (by decide),
    ⟨by decide, by decide⟩,
    (discovery_fails_after_five_timeouts same_station 0 silent_world).2.1 (by decide)
      (by decide)⟩

/-- C4 as stated fails: in this run `main` returns 1 from the discovery loop
with "Failed to locate a device on the network!" although the third of the six
polls succeeded, so the five most recent polls did not all time out. -/
theorem discovery_failure_not_consecutive :
    (main same_station 0 cumulative_world).map
        (fun x => (x.1, decide (Event.printf .failed_to_locate ∈ x.2.trace),
          discovery_polls x.2.trace, last_five_timed_out x.2.trace)) =
      some (1, true, [1, 1, 0, 1, 1, 1], false) := by
  decide

/-! ## C5: the loopback verdict -/

/-- C5: when discovery has bound a device and every write poll and read poll
returns 0, `main` returns 0 exactly when `device_info.last_val` is 0 after the
read poll of pass 0 and 1 after the read poll of pass 1.  If the value differs
in pass 0, `main` prints "ERROR! Input was not 0" and returns 1 there, the
second write and read never being sent; if it differs in pass 1, `main`
prints "ERROR! Input was not 1" and returns 1. -/
theorem loopback_verdict (am : Addr → Addr → Bool) (a0 : Addr) (w : World Addr)
    (s a1 a2 : State Addr) (rest1 rest2 : List (Iter Addr))
    (hloc : locate am 0 w.discovery (init a0) = some (.bound s))
    (hw0 : handler_loop am (w.write 0).poll .write_handled
      (send_write 0 (w.write 0).invoke_id (announce s)) = some (0, a1, rest1))
    (hr0 : handler_loop am (w.read 0).poll .read_handled
      (send_read (w.read 0).invoke_id (a1.log (.handler_loop .write_handled 0))) =
        some (0, a2, rest2)) :
    (a2.device_info.last_val ≠ 0 →
      main am a0 w =
        some (1, (a2.log (.handler_loop .read_handled 0)).log (.printf (.input_was_not 0))) ∧
      (a2.log (.handler_loop .read_handled 0)).trace.filterMap Event.request =
        [(.OBJECT_BINARY_OUTPUT, 1, some 0), (.OBJECT_BINARY_INPUT, 1, none)]) ∧
    (a2.device_info.last_val = 0 →
      ∀ (a3 a4 : State Addr) (rest3 rest4 : List (Iter Addr)),
        handler_loop am (w.write 1).poll .write_handled
          (send_write 1 (w.write 1).invoke_id (a2.log (.handler_loop .read_handled 0))) =
            some (0, a3, rest3) →
        handler_loop am (w.read 1).poll .read_handled
          (send_read (w.read 1).invoke_id (a3.log (.handler_loop .write_handled 0))) =
            some (0, a4, rest4) →
        (a4.device_info.last_val ≠ 1 →
          main am a0 w =
            some (1,
              (a4.log (.handler_loop .read_handled 0)).log (.printf (.input_was_not 1)))) ∧
        (a4.device_info.last_val = 1 →
          main am a0 w = some (0, a4.log (.handler_loop .read_handled 0))) ∧
        ((∃ sf, main am a0 w = some (0, sf)) ↔ a4.device_info.last_val = 1)) := by
  have hiter0 : rw_iteration am (w.write 0) (w.read 0) 0 (announce s) =
      if a2.device_info.last_val ≠ 0 then
        some (.exit 1 ((a2.log (.handler_loop .read_handled 0)).log (.printf (.input_was_not 0))))
      else some (.next (a2.log (.handler_loop .read_handled 0))) := by
    simp only [rw_iteration, hw0, give_up, ne_eq, not_true_eq_false, if_false, read_back, hr0]
    rfl
  constructor
  · intro hv
    refine ⟨?_, ?_⟩
    · simp only [main, hloc, rw_loop, hiter0, hv, ne_eq, not_false_eq_true, if_true]
    · obtain ⟨_, _, ht1⟩ := handler_loop_effect am _ _ _ _ _ _ hw0
      obtain ⟨_, _, ht2⟩ := handler_loop_effect am _ _ _ _ _ _ hr0
      obtain ⟨ex, hex, hdisc, _⟩ :=
        locate_effect am w.discovery 0 (init a0) (.bound s) (le_refl 0) (by decide) hloc
      have hs : s.trace = ex := by simpa [init, Located.state] using hex
      simp [State.log, ht2, send_read, ht1, send_write, announce, hs, Event.request,
        filterMap_request_discovery ex hdisc]
  · intro hv a3 a4 rest3 rest4 hw1 hr1
    have hiter1 : rw_iteration am (w.write 1) (w.read 1) 1
        (a2.log (.handler_loop .read_handled 0)) =
        if a4.device_info.last_val ≠ 1 then
          some (.exit 1
            ((a4.log (.handler_loop .read_handled 0)).log (.printf (.input_was_not 1))))
        else some (.next (a4.log (.handler_loop .read_handled 0))) := by
      simp only [rw_iteration, hw1, give_up, ne_eq, not_true_eq_false, if_false, read_back, hr1]
      rfl
    have hmain : main am a0 w =
        if a4.device_info.last_val ≠ 1 then
          some (1, (a4.log (.handler_loop .read_handled 0)).log (.printf (.input_was_not 1)))
        else some (0, a4.log (.handler_loop .read_handled 0)) := by
      by_cases h4 : a4.device_info.last_val = 1
      · simp only [main, hloc, rw_loop, hiter0, hv, ne_eq, not_true_eq_false, if_false, zero_add,
          hiter1, h4]
      · simp only [main, hloc, rw_loop, hiter0, hv, ne_eq, not_true_eq_false, if_false, zero_add,
          hiter1, h4, not_false_eq_true, if_true]
    refine ⟨fun h => by rw [hmain, if_pos h], fun h => by rw [hmain]; simp [h], ?_⟩
    constructor
    · rintro ⟨sf, hsf⟩
      by_contra hne
      rw [hmain, if_pos hne] at hsf
      simp at hsf
    · intro h
      exact ⟨a4.log (.handler_loop .read_handled 0), by rw [hmain]; simp [h]⟩

/-- C5 at concrete runs: the echoing device gives exit status 0; a device that
reads back 1 after 0 was written gives exit status 1 in pass 0. -/
theorem loopback_verdict_witness :
    main same_station 0 echo_world = some (0, echo_end) ∧
    (main same_station 0 stuck_input_world).map (fun x => (x.1, x.2.trace.getLast?)) =
      some (1, some (.printf (.input_was_not 0))) ∧
    (Msg.input_was_not 0).text = "ERROR! Input was not 0\n" :=
  ⟨((loopback_verdict same_station 0 echo_world echo_bound
      { (send_write 0 10 (announce echo_bound)) with write_handled := 0 }
      { (send_read 20 ((send_write 0 10 (announce echo_bound)).log
          (.handler_loop .write_handled 0))) with read_handled := 0 }
      [⟨104, none⟩] [⟨104, none⟩] (by decide) (by decide) (by decide)).2 (by decide)
      { (send_write 1 11 ((send_read 20 ((send_write 0 10 (announce echo_bound)).log
          (.handler_loop .write_handled 0))).log (.handler_loop .read_handled 0))) with
        write_handled := 0 }
      { echo_end with trace := echo_end.trace.dropLast }
      [⟨104, none⟩] [⟨104, none⟩] (by decide) (by decide)).2.1 (by decide),
    by decide, by decide⟩

/-! ## C6: a write that is not acknowledged -/

/-- C6, as the code has it.  On the trace of every run of `main`: when the
poll for a write returns 1, `main` asks `tsm_invoke_id_free(req_id)`; on the
answer `false` it calls `tsm_free_invoke_id`, prints "Failed to toggle relay!"
and returns 1, nothing more being sent; on the answer `true` it prints nothing
and sends the read request.  And in every pass `i`, from every state: when the
write poll returns 1 the pass ends with `return 1` on the answer `false`, and
goes on with the read on the answer `true`. -/
theorem write_timeout_outcome (am : Addr → Addr → Bool) (a0 : Addr) (w : World Addr) :
    (∀ (r : Int) (s' : State Addr) (pre post : List Event),
      main am a0 w = some (r, s') →
      s'.trace = pre ++ .handler_loop .write_handled 1 :: post →
      ∃ q, (post = [.tsm_invoke_id_free q false, .tsm_free_invoke_id q,
            .printf .failed_to_toggle] ∧ r = 1) ∨
        ∃ d q' post', post = .tsm_invoke_id_free q true ::
          .Send_Read_Property_Request d .OBJECT_BINARY_INPUT 1 q' :: post') ∧
    (∀ (i : Nat) (s s2 : State Addr) (rest : List (Iter Addr)),
      handler_loop am (w.write i).poll .write_handled
          (send_write i (w.write i).invoke_id s) = some (1, s2, rest) →
      ((w.write i).id_free = false →
        rw_iteration am (w.write i) (w.read i) i s =
          some (.exit 1 { s2 with trace := s2.trace ++
            [.handler_loop .write_handled 1, .tsm_invoke_id_free (w.write i).invoke_id false,
              .tsm_free_invoke_id (w.write i).invoke_id, .printf .failed_to_toggle] })) ∧
      ((w.write i).id_free = true →
        rw_iteration am (w.write i) (w.read i) i s =
          read_back am (w.read i) i { s2 with trace := s2.trace ++
            [.handler_loop .write_handled 1,
              .tsm_invoke_id_free (w.write i).invoke_id true] })) := by
  constructor
  · intro r s' pre post h hsplit
    obtain ⟨ex, hdisc, _, hcase⟩ := main_shape am a0 w r s' h
    have hex : Event.handler_loop .write_handled 1 ∉ ex := by
      intro hm
      have := hdisc _ hm
      simp [Event.of_discovery] at this
    rcases hcase with ⟨_, htr, _⟩ | ⟨_, _, ex1, d, o0, _, _, hrest⟩
    · exfalso
      rw [htr] at hsplit
      exact hex (by rw [hsplit]; simp)
    · have hhead : Event.handler_loop .write_handled 1 ∉
          ex ++ [.printf (.located d), .printf .setting_and_clearing] := by
        intro hm
        rcases List.mem_append.mp hm with hm | hm
        · exact hex hm
        · simp at hm
      rcases hrest with ⟨hx0, hr, htr⟩ | ⟨hx0, o1, htr, hlast⟩
      · rw [htr] at hsplit
        obtain ⟨pre', _, h0⟩ := append_split_right _ _ _ _ _ hhead hsplit
        rcases write_timeout_in_pass o0 _ _ 0 pre' post h0 with ⟨hp, _⟩ | ⟨d', post', hp⟩
        · exact ⟨_, Or.inl ⟨hp, hr⟩⟩
        · exact ⟨_, Or.inr ⟨d', _, post', hp⟩⟩
      · rw [htr] at hsplit
        rcases append_split _ _ _ _ _ hsplit with ⟨post1, h1, hpost⟩ | ⟨pre1, _, h1⟩
        · obtain ⟨pre', _, h0⟩ := append_split_right _ _ _ _ _ hhead h1
          rcases write_timeout_in_pass o0 _ _ 0 pre' post1 h0 with ⟨_, hx⟩ | ⟨d', post', hp⟩
          · rw [hx0] at hx
            exact absurd hx (by decide)
          · exact ⟨(w.write 0).invoke_id, Or.inr ⟨d', (w.read 0).invoke_id,
              post' ++ o1.events (w.write 1) (w.read 1) 1, by rw [hpost, hp]; simp⟩⟩
        · rcases write_timeout_in_pass o1 _ _ 1 pre1 post h1 with ⟨hp, hx⟩ | ⟨d', post', hp⟩
          · rcases hlast with ⟨_, hr⟩ | ⟨hx1, _⟩
            · exact ⟨_, Or.inl ⟨hp, hr⟩⟩
            · rw [hx1] at hx
              exact absurd hx (by decide)
          · exact ⟨_, Or.inr ⟨d', _, post', hp⟩⟩
  · intro i s s2 rest hp
    obtain ⟨_, hq, _⟩ := handler_loop_effect am _ _ _ _ _ _ hp
    have hq' : s2.req_id = (w.write i).invoke_id := by rw [hq]; rfl
    constructor
    · intro hf
      simp [rw_iteration, hp, give_up, hf, State.log, hq']
    · intro hf
      simp [rw_iteration, hp, give_up, hf, State.log, hq']

/-- C6 at a concrete run: device 7 is found and never acknowledges the first
write, and the transaction manager reports the request outstanding. -/
theorem write_timeout_outcome_witness :
    main same_station 0 refused_world = some (1, refused_end) ∧
    Msg.failed_to_toggle.text = "Failed to toggle relay!\n" ∧
    refused_end.trace =
      (echo_bound.trace ++ [.printf (.located 7), .printf .setting_and_clearing,
        .Send_Write_Property_Request 7 .OBJECT_BINARY_OUTPUT 1 0 10]) ++
        .handler_loop .write_handled 1 ::
          [.tsm_invoke_id_free 10 false, .tsm_free_invoke_id 10, .printf .failed_to_toggle] ∧
    ∃ q, ([Event.tsm_invoke_id_free 10 false, .tsm_free_invoke_id 10,
          .printf .failed_to_toggle] =
          [.tsm_invoke_id_free q false, .tsm_free_invoke_id q, .printf .failed_to_toggle] ∧
          (1 : Int) = 1) ∨
      ∃ d q' post', [Event.tsm_invoke_id_free 10 false, .tsm_free_invoke_id 10,
          .printf .failed_to_toggle] = .tsm_invoke_id_free q true ::
        .Send_Read_Property_Request d .OBJECT_BINARY_INPUT 1 q' :: post' :=
  ⟨by decide, by decide, by decide,
    (write_timeout_outcome same_station 0 refused_world).1 1 refused_end
      (echo_bound.trace ++ [.printf (.located 7), .printf .setting_and_clearing,
        .Send_Write_Property_Request 7 .OBJECT_BINARY_OUTPUT 1 0 10])
      [.tsm_invoke_id_free 10 false, .tsm_free_invoke_id 10, .printf .failed_to_toggle]
      (by decide) (by decide)⟩

/-- C6 as stated fails: in this run discovery succeeds and `write_handled` is
never set during the write poll of pass 0, which times out and returns 1; the
transaction manager answers that the invoke id is free, and `main` prints no
"Failed to toggle relay!", sends the read request and goes on to return 0. -/
theorem write_timeout_not_always_fatal :
    flag_stays_zero same_station .write_handled (unacknowledged_world.write 0).poll.iters
        (send_write 0 10 (announce echo_bound)) = true ∧
    (handler_loop same_station (unacknowledged_world.write 0).poll .write_handled
        (send_write 0 10 (announce echo_bound))).map (fun x => x.1) = some 1 ∧
    (main same_station 0 unacknowledged_world).map
        (fun x => (x.1, decide (Event.printf .failed_to_toggle ∈ x.2.trace),
          x.2.trace.filterMap Event.request)) =
      some (0, false,
        [(.OBJECT_BINARY_OUTPUT, 1, some 0), (.OBJECT_BINARY_INPUT, 1, none),
          (.OBJECT_BINARY_OUTPUT, 1, some 1), (.OBJECT_BINARY_INPUT, 1, none)]) :=
  ⟨by decide, by decide, by rfl⟩

/-! ## C7: the order of the requests -/

/-- Says that a trace ends with a write request followed by the return 0 of
its poll, or by the return 1 and the answer `true` of `tsm_invoke_id_free`. -/
theorem write_awaited_append (X pre : List Event) (dw v qw : Nat)
    (h : pre = [.Send_Write_Property_Request dw .OBJECT_BINARY_OUTPUT 1 v qw,
          .handler_loop .write_handled 0] ∨
        pre = [.Send_Write_Property_Request dw .OBJECT_BINARY_OUTPUT 1 v qw,
          .handler_loop .write_handled 1, .tsm_invoke_id_free qw true]) :
    ∃ pre', X ++ pre = pre' ++ [.Send_Write_Property_Request dw .OBJECT_BINARY_OUTPUT 1 v qw,
          .handler_loop .write_handled 0] ∨
        X ++ pre = pre' ++ [.Send_Write_Property_Request dw .OBJECT_BINARY_OUTPUT 1 v qw,
          .handler_loop .write_handled 1, .tsm_invoke_id_free qw true] := by
  rcases h with h | h
  · exact ⟨X, Or.inl (by rw [h])⟩
  · exact ⟨X, Or.inr (by rw [h])⟩

/-- C7, as the code has it, on the trace of every run of `main`: no write or
read request is sent before `address_bind_request` has answered `true`; the
requests sent are, in order, the first ones of write(binary output 1, value
0), read(binary input 1), write(binary output 1, value 1), read(binary input
1); and each read request is sent right after the poll for the preceding write
has returned 0, or has returned 1 and `tsm_invoke_id_free` has answered
`true`. -/
theorem requests_in_order (am : Addr → Addr → Bool) (a0 : Addr) (w : World Addr)
    (r : Int) (s' : State Addr) (h : main am a0 w = some (r, s')) :
    (∀ (pre post : List Event) (e : Event), s'.trace = pre ++ e :: post →
      e.request ≠ none → ∃ d, Event.address_bind_request d true ∈ pre) ∧
    (s'.trace.filterMap Event.request <+:
      [(.OBJECT_BINARY_OUTPUT, 1, some 0), (.OBJECT_BINARY_INPUT, 1, none),
        (.OBJECT_BINARY_OUTPUT, 1, some 1), (.OBJECT_BINARY_INPUT, 1, none)]) ∧
    (∀ (pre post : List Event) (d : Nat) (ot : OBJECT_TYPE) (oi q : Nat),
      s'.trace = pre ++ .Send_Read_Property_Request d ot oi q :: post →
      ∃ pre' dw v qw,
        pre = pre' ++ [.Send_Write_Property_Request dw .OBJECT_BINARY_OUTPUT 1 v qw,
          .handler_loop .write_handled 0] ∨
        pre = pre' ++ [.Send_Write_Property_Request dw .OBJECT_BINARY_OUTPUT 1 v qw,
          .handler_loop .write_handled 1, .tsm_invoke_id_free qw true]) := by
  obtain ⟨ex, hdisc, _, hcase⟩ := main_shape am a0 w r s' h
  have hreq : ∀ e : Event, e.request ≠ none → e ∉ ex := by
    intro e he hm
    exact he (of_discovery_request e (hdisc e hm))
  have hfm : ex.filterMap Event.request = [] := filterMap_request_discovery ex hdisc
  rcases hcase with ⟨_, htr, _⟩ | ⟨_, _, ex1, d, o0, hex1, _, hrest⟩
  · refine ⟨?_, ?_, ?_⟩
    · intro pre post e hs he
      exact absurd (by rw [← htr, hs]; simp) (hreq e he)
    · rw [htr, hfm]
      exact List.nil_prefix
    · intro pre post d ot oi q hs
      exact absurd (by rw [← htr, hs]; simp) (hreq (.Send_Read_Property_Request d ot oi q)
        (by simp [Event.request]))
  · have hbound : ∀ (pre post : List Event) (e : Event) (L : List Event),
        ex ++ L = pre ++ e :: post → e.request ≠ none →
        ∃ d, Event.address_bind_request d true ∈ pre := by
      intro pre post e L hs he
      obtain ⟨pre', hp, _⟩ := append_split_right e ex L pre post (hreq e he) hs
      exact ⟨d, by rw [hp, hex1]; simp⟩
    have hhead : ∀ (d' : Nat) (ot : OBJECT_TYPE) (oi q : Nat),
        Event.Send_Read_Property_Request d' ot oi q ∉
          ex ++ [.printf (.located d), .printf .setting_and_clearing] := by
      intro d' ot oi q hm
      rcases List.mem_append.mp hm with hm | hm
      · exact hreq _ (by simp [Event.request]) hm
      · simp at hm
    rcases hrest with ⟨_, _, htr⟩ | ⟨hx0, o1, htr, _⟩
    · refine ⟨?_, ?_, ?_⟩
      · intro pre post e hs he
        rw [htr, List.append_assoc] at hs
        exact hbound pre post e _ hs he
      · rw [htr]
        simp only [List.filterMap_append, hfm, requests_in_pass, List.nil_append]
        have : List.filterMap Event.request
            [Event.printf (.located d), .printf .setting_and_clearing] = [] := by
          simp [Event.request]
        rw [this]
        by_cases hb0 : (o0.write_timed_out && !(w.write 0).id_free) = true
        · simp only [hb0, if_true]
          decide
        · simp only [hb0, if_false]
          decide
      · intro pre post d' ot oi q hs
        rw [htr] at hs
        obtain ⟨pre', hp, h0⟩ := append_split_right _ _ _ _ _ (hhead d' ot oi q) hs
        obtain ⟨p, hp'⟩ := write_awaited_append
          (ex ++ [.printf (.located d), .printf .setting_and_clearing]) pre' _ _ _
          (read_request_in_pass o0 _ _ 0 pre' post d' ot oi q h0)
        rw [← hp] at hp'
        exact ⟨p, _, _, _, hp'⟩
    · refine ⟨?_, ?_, ?_⟩
      · intro pre post e hs he
        rw [htr, List.append_assoc, List.append_assoc] at hs
        exact hbound pre post e _ hs he
      · rw [htr]
        simp only [List.filterMap_append, hfm, requests_in_pass, List.nil_append]
        have : List.filterMap Event.request
            [Event.printf (.located d), .printf .setting_and_clearing] = [] := by
          simp [Event.request]
        rw [this]
        have hgo : (o0.write_timed_out && !(w.write 0).id_free) = false := by
          have := hx0
          simp only [Seen.exits, Bool.or_eq_false_iff] at this
          exact this.1.1
        by_cases hb1 : (o1.write_timed_out && !(w.write 1).id_free) = true
        · simp only [hgo, hb1, if_true, if_false, Bool.false_eq_true]
          decide
        · simp only [hgo, hb1, if_false, Bool.false_eq_true]
          decide
      · intro pre post d' ot oi q hs
        rw [htr] at hs
        rcases append_split _ _ _ _ _ hs with ⟨post1, h1, _⟩ | ⟨pre1, hp1, h1⟩
        · obtain ⟨pre', hp, h0⟩ := append_split_right _ _ _ _ _ (hhead d' ot oi q) h1
          obtain ⟨p, hp'⟩ := write_awaited_append
            (ex ++ [.printf (.located d), .printf .setting_and_clearing]) pre' _ _ _
            (read_request_in_pass o0 _ _ 0 pre' post1 d' ot oi q h0)
          rw [← hp] at hp'
          exact ⟨p, _, _, _, hp'⟩
        · obtain ⟨p, hp'⟩ := write_awaited_append
            (ex ++ [.printf (.located d), .printf .setting_and_clearing] ++
              o0.events (w.write 0) (w.read 0) 0) pre1 _ _ _
            (read_request_in_pass o1 _ _ 1 pre1 post d' ot oi q h1)
          rw [← hp1] at hp'
          exact ⟨p, _, _, _, hp'⟩

/-- C7 at a concrete run: the run with the echoing device sends the four
requests in order. -/
theorem requests_in_order_witness :
    main same_station 0 echo_world = some (0, echo_end) ∧
    echo_end.trace.filterMap Event.request <+:
      [(.OBJECT_BINARY_OUTPUT, 1, some 0), (.OBJECT_BINARY_INPUT, 1, none),
        (.OBJECT_BINARY_OUTPUT, 1, some 1), (.OBJECT_BINARY_INPUT, 1, none)] :=
  ⟨by decide, (requests_in_order same_station 0 echo_world 0 echo_end (by decide)).2.1⟩

/-- C7 as stated fails: in this run the read request of pass 0 is sent although
the poll for the preceding write returned 1, the transaction manager having
answered that the invoke id is free. -/
theorem read_sent_after_write_timeout :
    (main same_station 0 unacknowledged_world).map (fun x => x.2.trace.take 10) =
      some
        [.address_bind_request 0 false, .Send_WhoIs, .handler_loop .i_am_handled 0,
          .address_bind_request 7 true, .printf (.located 7), .printf .setting_and_clearing,
          .Send_Write_Property_Request 7 .OBJECT_BINARY_OUTPUT 1 0 10,
          .handler_loop .write_handled 1, .tsm_invoke_id_free 10 true,
          .Send_Read_Property_Request 7 .OBJECT_BINARY_INPUT 1 20] := by
  decide

/-! ## C10: what exit status 0 certifies -/

theorem flag_zero_through (am : Addr → Addr → Bool) (check : Flag) (pre : List (Iter Addr))
    (s : State Addr) (hz : check.get s = 0)
    (h : flag_stays_zero am check pre s = true) : check.get (receive_all am pre s) = 0 := by
  induction pre generalizing s with
  | nil => exact hz
  | cons x xs ih =>
    simp only [flag_stays_zero, Bool.and_eq_true, decide_eq_true_eq] at h
    exact ih _ h.1 h.2

/-- A receive step that sets a flag which was zero dispatched a frame its
handler accepted; a read acknowledgment so accepted leaves its value in
`device_info.last_val`. -/
theorem receive_sets_flag (am : Addr → Addr → Bool) (check : Flag) (it : Iter Addr)
    (t : State Addr) (hz : check.get t = 0) (hs : check.get (receive am it t) ≠ 0) :
    ∃ f, it.pdu = some f ∧
      f.acknowledges am check t.device_info.address t.req_id = true ∧
      ∀ src invoke_id v, f = .read_ack src invoke_id v →
        (receive am it t).device_info.last_val = v := by
  unfold receive at hs ⊢
  cases hp : it.pdu with
  | none =>
    rw [hp] at hs
    exact absurd hz hs
  | some f =>
    rw [hp] at hs
    refine ⟨f, rfl, ?_⟩
    cases f with
    | i_am len d m src =>
      by_cases hl : len = -1
      · subst hl
        cases check <;> simp [npdu_handler, MyIAmHandler, Flag.get] at hs hz <;>
          exact absurd hz hs
      · cases check <;> simp [npdu_handler, MyIAmHandler, Flag.get, hl] at hs hz
        · exact absurd hz hs
        · exact absurd hz hs
        · simp [Frame.acknowledges, hl]
    | write_ack src id =>
      by_cases hc : (am t.device_info.address src && (id == t.req_id)) = true
      · cases check <;>
          simp [npdu_handler, MyWritePropertyAckHandler, Flag.get, hc] at hs hz
        · simpa [Frame.acknowledges] using hc
        · exact absurd hz hs
        · exact absurd hz hs
      · cases check <;>
          simp [npdu_handler, MyWritePropertyAckHandler, Flag.get, hc] at hs hz <;>
          exact absurd hz hs
    | read_ack src id v =>
      by_cases hc : (am t.device_info.address src && (id == t.req_id)) = true
      · cases check <;>
          simp [npdu_handler, MyReadPropertyAckHandler, Flag.get, hc] at hs hz
        · exact absurd hz hs
        · refine ⟨by simpa [Frame.acknowledges] using hc, ?_⟩
          intro src' id' v' hf
          simp only [Frame.read_ack.injEq] at hf
          simp [npdu_handler, MyReadPropertyAckHandler, hc, hf.2.2]
        · exact absurd hz hs
      · cases check <;>
          simp [npdu_handler, MyReadPropertyAckHandler, Flag.get, hc] at hs hz <;>
          exact absurd hz hs
    | other =>
      simp only [npdu_handler] at hs
      exact absurd hz hs

/-- A poll entered with its flag zero that returns 0 accepted, in the pass in
which it returned, a frame for the request id it was entered with. -/
theorem handler_loop_acknowledged (am : Addr → Addr → Bool) (p : Poll Addr) (check : Flag)
    (s s1 : State Addr) (rest : List (Iter Addr))
    (h : handler_loop am p check s = some (0, s1, rest)) (hz : check.get s = 0) :
    acknowledged am p check s s1 rest := by
  obtain ⟨pre, it, h1, h2, _, h4⟩ := handler_loop_for_some am check _ _ _ s 0 s1 rest h
  rcases h4 with ⟨_, hset, hs1⟩ | ⟨hr, _⟩
  · have hz' := flag_zero_through am check pre s hz h2
    obtain ⟨f, hf, hack, hval⟩ := receive_sets_flag am check it _ hz' hset
    refine ⟨pre, it, f, h1, h2, hf, ?_, ?_⟩
    · rw [← (receive_all_effect am pre s).1]
      exact hack
    · intro src id v hfv
      rw [hs1, (flag_clear_effect _ _).2.2]
      exact hval src id v hfv
  · exact absurd hr (by decide)

/-- A pass of the write/read loop after which `main` goes on: both polls
returned, each with 0 or with 1 and the invoke id reported free, and the value
compared is the expected one. -/
theorem rw_iteration_next (am : Addr → Addr → Bool) (ew er : Exchange Addr) (i : Nat)
    (s s1 : State Addr) (h : rw_iteration am ew er i s = some (.next s1)) :
    ∃ (r0 r1 : Int) (b0 b1 : State Addr) (t0 t1 : List (Iter Addr)),
      handler_loop am ew.poll .write_handled (send_write i ew.invoke_id s) =
        some (r0, b0, t0) ∧
      handler_loop am er.poll .read_handled
          (send_read er.invoke_id (resume .write_handled r0 b0)) = some (r1, b1, t1) ∧
      b1.device_info.last_val = i ∧ s1 = resume .read_handled r1 b1 ∧
      (r0 = 0 ∨ (r0 = 1 ∧ ew.id_free = true)) ∧
      (r1 = 0 ∨ (r1 = 1 ∧ er.id_free = true)) := by
  simp only [rw_iteration] at h
  cases hp : handler_loop am ew.poll .write_handled (send_write i ew.invoke_id s) with
  | none => simp [hp] at h
  | some out =>
    obtain ⟨r0, b0, t0⟩ := out
    simp only [hp] at h
    obtain ⟨hr0, _, _⟩ := handler_loop_effect am _ _ _ _ _ _ hp
    rw [give_up_effect r0 hr0] at h
    by_cases hx : r0 = 1 ∧ ew.id_free = false
    · simp [hx] at h
    · simp only [hx, if_false, read_back] at h
      have hres : ({ b0.log (.handler_loop .write_handled r0) with
          trace := (b0.log (.handler_loop .write_handled r0)).trace ++
            after_poll r0 (b0.log (.handler_loop .write_handled r0)).req_id } : State Addr) =
          resume .write_handled r0 b0 := rfl
      rw [hres] at h
      cases hp1 : handler_loop am er.poll .read_handled
          (send_read er.invoke_id (resume .write_handled r0 b0)) with
      | none => simp [hp1] at h
      | some out1 =>
        obtain ⟨r1, b1, t1⟩ := out1
        simp only [hp1] at h
        obtain ⟨hr1, _, _⟩ := handler_loop_effect am _ _ _ _ _ _ hp1
        rw [give_up_effect r1 hr1] at h
        by_cases hy : r1 = 1 ∧ er.id_free = false
        · simp [hy] at h
        · simp only [hy, if_false] at h
          by_cases hval : b1.device_info.last_val = i
          · rw [if_neg (show ¬ ((b1.log (.handler_loop .read_handled r1)).device_info.last_val ≠ i)
              from not_not.mpr hval)] at h
            simp only [Option.some.injEq, Step.next.injEq] at h
            refine ⟨r0, r1, b0, b1, t0, t1, rfl, hp1, hval, h.symm, ?_, ?_⟩
            · rcases hr0 with h0 | h0
              · exact Or.inl h0
              · refine Or.inr ⟨h0, ?_⟩
                cases hf : ew.id_free
                · exact absurd ⟨h0, hf⟩ hx
                · rfl
            · rcases hr1 with h1 | h1
              · exact Or.inl h1
              · refine Or.inr ⟨h1, ?_⟩
                cases hf : er.id_free
                · exact absurd ⟨h1, hf⟩ hy
                · rfl
          · rw [if_pos (show (b1.log (.handler_loop .read_handled r1)).device_info.last_val ≠ i
              from hval)] at h
            simp at h

/-- C10, as the code has it: every run of `main` that returns 0 went through
the four polls write, read, write, read, and each poll either returned 0 or
returned 1 with `tsm_invoke_id_free` then answering `true`.  A poll that
returned 0 and was entered with its flag zero accepted, in the pass in which
it returned, an acknowledgment from an address matching `device_info.address`
with the invoke id of the request just sent; for a read poll the value then
compared with `i` is the one that acknowledgment stored.  The value compared
is 0 in pass 0 and 1 in pass 1. -/
theorem exit_zero_exchanges (am : Addr → Addr → Bool) (a0 : Addr) (w : World Addr)
    (s' : State Addr) (h : main am a0 w = some (0, s')) :
    ∃ (s b0 b1 b2 b3 : State Addr) (r0 r1 r2 r3 : Int) (t0 t1 t2 t3 : List (Iter Addr)),
      locate am 0 w.discovery (init a0) = some (.bound s) ∧
      handler_loop am (w.write 0).poll .write_handled
          (send_write 0 (w.write 0).invoke_id (announce s)) = some (r0, b0, t0) ∧
      handler_loop am (w.read 0).poll .read_handled
          (send_read (w.read 0).invoke_id (resume .write_handled r0 b0)) = some (r1, b1, t1) ∧
      b1.device_info.last_val = 0 ∧
      handler_loop am (w.write 1).poll .write_handled
          (send_write 1 (w.write 1).invoke_id (resume .read_handled r1 b1)) =
        some (r2, b2, t2) ∧
      handler_loop am (w.read 1).poll .read_handled
          (send_read (w.read 1).invoke_id (resume .write_handled r2 b2)) = some (r3, b3, t3) ∧
      b3.device_info.last_val = 1 ∧
      s' = resume .read_handled r3 b3 ∧
      (r0 = 0 ∨ (r0 = 1 ∧ (w.write 0).id_free = true)) ∧
      (r1 = 0 ∨ (r1 = 1 ∧ (w.read 0).id_free = true)) ∧
      (r2 = 0 ∨ (r2 = 1 ∧ (w.write 1).id_free = true)) ∧
      (r3 = 0 ∨ (r3 = 1 ∧ (w.read 1).id_free = true)) ∧
      (r0 = 0 → (send_write 0 (w.write 0).invoke_id (announce s)).write_handled = 0 →
        acknowledged am (w.write 0).poll .write_handled
          (send_write 0 (w.write 0).invoke_id (announce s)) b0 t0) ∧
      (r1 = 0 →
        (send_read (w.read 0).invoke_id (resume .write_handled r0 b0)).read_handled = 0 →
        acknowledged am (w.read 0).poll .read_handled
          (send_read (w.read 0).invoke_id (resume .write_handled r0 b0)) b1 t1) ∧
      (r2 = 0 →
        (send_write 1 (w.write 1).invoke_id (resume .read_handled r1 b1)).write_handled = 0 →
        acknowledged am (w.write 1).poll .write_handled
          (send_write 1 (w.write 1).invoke_id (resume .read_handled r1 b1)) b2 t2) ∧
      (r3 = 0 →
        (send_read (w.read 1).invoke_id (resume .write_handled r2 b2)).read_handled = 0 →
        acknowledged am (w.read 1).poll .read_handled
          (send_read (w.read 1).invoke_id (resume .write_handled r2 b2)) b3 t3) ∧
      s'.trace =
        s.trace ++ [.printf (.located s.device_info.device_id), .printf .setting_and_clearing] ++
          (([.Send_Write_Property_Request s.device_info.device_id .OBJECT_BINARY_OUTPUT 1 0
                (w.write 0).invoke_id,
              .handler_loop .write_handled r0] ++ after_poll r0 (w.write 0).invoke_id) ++
            ([.Send_Read_Property_Request b0.device_info.device_id .OBJECT_BINARY_INPUT 1
                (w.read 0).invoke_id,
              .handler_loop .read_handled r1] ++ after_poll r1 (w.read 0).invoke_id)) ++
          (([.Send_Write_Property_Request b1.device_info.device_id .OBJECT_BINARY_OUTPUT 1 1
                (w.write 1).invoke_id,
              .handler_loop .write_handled r2] ++ after_poll r2 (w.write 1).invoke_id) ++
            ([.Send_Read_Property_Request b2.device_info.device_id .OBJECT_BINARY_INPUT 1
                (w.read 1).invoke_id,
              .handler_loop .read_handled r3] ++ after_poll r3 (w.read 1).invoke_id)) := by
  simp only [main] at h
  cases hl : locate am 0 w.discovery (init a0) with
  | none => simp [hl] at h
  | some res =>
    cases res with
    | failed s => simp [hl] at h
    | bound s =>
      simp only [hl, rw_loop] at h
      cases h0 : rw_iteration am (w.write 0) (w.read 0) 0 (announce s) with
      | none => simp [h0] at h
      | some res0 =>
        cases res0 with
        | exit code s1 =>
          simp only [h0, Option.some.injEq, Prod.mk.injEq] at h
          obtain ⟨o, _, _, hx, hn⟩ := rw_iteration_shape am _ _ _ _ _ h0
          cases hb : o.exits (w.write 0) (w.read 0) with
          | true =>
            have := hx hb
            simp only [Step.state, Step.exit.injEq] at this
            omega
          | false => exact absurd (hn hb).1 (by simp [Step.state])
        | next s1 =>
          simp only [h0, zero_add] at h
          cases h1 : rw_iteration am (w.write 1) (w.read 1) 1 s1 with
          | none => simp [h1] at h
          | some res1 =>
            cases res1 with
            | exit code s2 =>
              simp only [h1, Option.some.injEq, Prod.mk.injEq] at h
              obtain ⟨o, _, _, hx, hn⟩ := rw_iteration_shape am _ _ _ _ _ h1
              cases hb : o.exits (w.write 1) (w.read 1) with
              | true =>
                have := hx hb
                simp only [Step.state, Step.exit.injEq] at this
                omega
              | false => exact absurd (hn hb).1 (by simp [Step.state])
            | next s2 =>
              simp only [h1, Option.some.injEq, Prod.mk.injEq, true_and] at h
              subst h
              obtain ⟨r0, r1, b0, b1, t0, t1, p0, p1, v0, e0, f0, f1⟩ :=
                rw_iteration_next am _ _ 0 _ _ h0
              subst e0
              obtain ⟨r2, r3, b2, b3, t2, t3, p2, p3, v1, e1, f2, f3⟩ :=
                rw_iteration_next am _ _ 1 _ _ h1
              obtain ⟨_, q0, tr0⟩ := handler_loop_effect am _ _ _ _ _ _ p0
              obtain ⟨_, q1, tr1⟩ := handler_loop_effect am _ _ _ _ _ _ p1
              obtain ⟨_, q2, tr2⟩ := handler_loop_effect am _ _ _ _ _ _ p2
              obtain ⟨_, q3, tr3⟩ := handler_loop_effect am _ _ _ _ _ _ p3
              refine ⟨s, b0, b1, b2, b3, r0, r1, r2, r3, t0, t1, t2, t3, rfl, p0, p1, v0, p2, p3,
                v1, e1, f0, f1, f2, f3, ?_, ?_, ?_, ?_, ?_⟩
              · intro hr hz
                subst hr
                exact handler_loop_acknowledged am _ _ _ _ _ p0 hz
              · intro hr hz
                subst hr
                exact handler_loop_acknowledged am _ _ _ _ _ p1 hz
              · intro hr hz
                subst hr
                exact handler_loop_acknowledged am _ _ _ _ _ p2 hz
              · intro hr hz
                subst hr
                exact handler_loop_acknowledged am _ _ _ _ _ p3 hz
              · rw [e1]
                simp only [resume, tr3, q3, send_read, State.log, tr2, q2, send_write, tr1, q1,
                  tr0, q0, announce]
                simp

/-- C10 at a concrete run: the run with the echoing device returns 0, and its
last state is the one in which the read poll of pass 1 was left, with the
return of that poll recorded. -/
theorem exit_zero_exchanges_witness :
    main same_station 0 echo_world = some (0, echo_end) ∧
    ∃ (s b3 : State Nat) (r3 : Int),
      locate same_station 0 echo_world.discovery (init 0) = some (.bound s) ∧
      b3.device_info.last_val = 1 ∧ echo_end = resume .read_handled r3 b3 :=
  ⟨by decide,
    match exit_zero_exchanges same_station 0 echo_world echo_end (by decide) with
    | ⟨s, _, _, _, b3, _, _, _, r3, _, _, _, _, hloc, _, _, _, _, _, hv, he, _⟩ =>
      ⟨s, b3, r3, hloc, hv, he⟩⟩

/-- C10 as stated fails, in two ways.  The first run returns 0, yet in pass 0
both polls return 1 and no frame reaches an acknowledgment handler, so no
acknowledgment was accepted for the requests of that pass, and the value
compared with 0 is the initial zero of `device_info.last_val`.  The second run
returns 0, yet in pass 1 the read poll receives nothing at all: it returns 0
because `read_handled` was set, and `last_val` stored, while the write was
awaited, by a read acknowledgment carrying the invoke id 11 of the write and
not the invoke id 21 of the read. -/
theorem exit_zero_without_acknowledgment :
    (main same_station 0 unacknowledged_world = some (0, unacknowledged_end) ∧
      Event.handler_loop .write_handled 1 ∈ unacknowledged_end.trace ∧
      Event.handler_loop .read_handled 1 ∈ unacknowledged_end.trace ∧
      (∀ it ∈ (unacknowledged_world.write 0).poll.iters ++
          (unacknowledged_world.read 0).poll.iters, it.pdu = none ∨ it.pdu = some .other) ∧
      (init 0 : State Nat).device_info.last_val = 0) ∧
    ((main same_station 0 stale_world).map (fun x => (x.1, x.2.trace.reverse.take 2)) =
        some (0, [.handler_loop .read_handled 0,
          .Send_Read_Property_Request 7 .OBJECT_BINARY_INPUT 1 21]) ∧
      (∀ it ∈ (stale_world.read 1).poll.iters, it.pdu = none) ∧
      (stale_world.write 1).invoke_id = 11 ∧
      (stale_world.write 1).poll.iters.map (fun it => it.pdu) =
        [some (.read_ack 1 11 1), some (.write_ack 1 11), none]) :=
  ⟨⟨by decide, by decide, by decide, by decide, by decide⟩,
    ⟨by decide, by decide, by decide, by decide⟩⟩

/-! ## C9: the identity of the bound device -/

end BACnetDemo
